import Mathlib

/-!
Verification of the `nhc-recon-parser` TEMP DROP decoder.

This file gives a shallow embedding of the decoding pipeline of
`src/nhc_recon_parser/parser.py` (the canonical parser) and of the
relevant helpers of `src/stac_catalog/main.py`, and proves or refutes
the specification claims about them.

Modelling conventions:
* Python `float` values are modelled as `ℚ` (all numbers produced by the
  decoder are exact decimals), Python `int` as `ℤ`.
* Python `int(str)` / `float(str)` conversions are modelled by `pyInt` /
  `pyFloat`, which implement the CPython literal grammar for finite
  decimal literals (optional surrounding whitespace, optional sign,
  digit runs with single underscores between digits, and for floats an
  optional fraction and exponent).  The `inf` / `nan` spellings are not
  modelled: no claim touches them.  All input is taken to be ASCII, as
  TEMP DROP messages are.
* A raised-and-uncaught Python exception is an `Except.error`; string
  indexing that can raise `IndexError` goes through `pyCharAt`.
* `print`-ed warnings are collected in a `warnings` list on the result,
  standing in for stdout.
-/

deriving instance DecidableEq for Except

/-- Python whitespace characters recognised by `str.strip()` / `str.split()`. -/
def isPySpace (c : Char) : Bool :=
  c = ' ' ∨ c = '\t' ∨ c = '\n' ∨ c = '\x0d' ∨ c = '\x0b' ∨ c = '\x0c'

/-- Strip leading and trailing Python whitespace from a character list. -/
def stripChars (cs : List Char) : List Char :=
  ((cs.dropWhile isPySpace).reverse.dropWhile isPySpace).reverse

/-- Python `str.strip()`. -/
def pyStrip (s : String) : String := String.mk (stripChars s.data)

/-- Helper for `pySplitWs`: split on whitespace runs, accumulating the current word. -/
def splitWsAux : List Char → List Char → List String
  | [], acc => if acc = [] then [] else [String.mk acc.reverse]
  | c :: rest, acc =>
    if isPySpace c then
      if acc = [] then splitWsAux rest []
      else String.mk acc.reverse :: splitWsAux rest []
    else splitWsAux rest (c :: acc)

/-- Python `str.split()` with no argument: split on whitespace runs, dropping empties. -/
def pySplitWs (s : String) : List String := splitWsAux s.data []

/-- Numeric value of the digit character `c`. -/
def digitVal (c : Char) : Nat := c.toNat - 48

/-- Value of a digit string read in base 10. -/
def valOfDigits (cs : List Char) : Nat :=
  cs.foldl (fun acc c => 10 * acc + digitVal c) 0

/-- Helper for `digitsVal`: consume digits, allowing a single `_` between two digits. -/
def digitsValAux : Nat → List Char → Option Nat
  | acc, [] => some acc
  | acc, c :: rest =>
    if c.isDigit then digitsValAux (10 * acc + digitVal c) rest
    else if c = '_' then
      match rest with
      | d :: _ => if d.isDigit then digitsValAux acc rest else none
      | [] => none
    else none

/-- Value of a CPython digit run: non-empty, starts with a digit, underscores
only between digits.  `none` when the run is not a valid literal. -/
def digitsVal : List Char → Option Nat
  | [] => none
  | c :: rest => if c.isDigit then digitsValAux 0 (c :: rest) else none

/-- Signed digit run: the part of `int(s)` after whitespace stripping. -/
def pyIntChars : List Char → Option Int
  | [] => none
  | c :: rest =>
    if c = '+' then (digitsVal rest).map Int.ofNat
    else if c = '-' then (digitsVal rest).map (fun n => -(Int.ofNat n))
    else (digitsVal (c :: rest)).map Int.ofNat

/-- Python `int(s)`: strip whitespace, optional sign, digit run. -/
def pyInt (s : String) : Option Int :=
  pyIntChars (stripChars s.data)

/-- Longest prefix made of digits and underscores, with the remainder. -/
def splitDigitsUS : List Char → List Char × List Char
  | [] => ([], [])
  | c :: rest =>
    if c.isDigit ∨ c = '_' then
      let p := splitDigitsUS rest
      (c :: p.1, p.2)
    else ([], c :: rest)

/-- Exponent of a float literal: the part after `e` / `E`. -/
def parseExp (cs : List Char) : Option Int :=
  match cs with
  | [] => none
  | c :: rest =>
    if c = '+' then (digitsVal rest).map Int.ofNat
    else if c = '-' then (digitsVal rest).map (fun n => -(Int.ofNat n))
    else (digitsVal (c :: rest)).map Int.ofNat

/-- Unsigned body of a Python float literal. -/
def pyFloatBody (cs : List Char) : Option ℚ :=
  let p := splitDigitsUS cs
  let ip := p.1
  if ip ≠ [] ∧ (digitsVal ip).isNone then none
  else
    let ipv : ℚ := (valOfDigits (ip.filter (fun c => c ≠ '_')) : ℚ)
    match p.2 with
    | '.' :: r2 =>
      let q := splitDigitsUS r2
      let fp := q.1
      if fp ≠ [] ∧ (digitsVal fp).isNone then none
      else if ip = [] ∧ fp = [] then none
      else
        let fd := fp.filter (fun c => c ≠ '_')
        let v : ℚ := ipv + (valOfDigits fd : ℚ) / ((10 : ℚ) ^ fd.length)
        match q.2 with
        | [] => some v
        | 'e' :: r4 => (parseExp r4).map (fun e => v * (10 : ℚ) ^ e)
        | 'E' :: r4 => (parseExp r4).map (fun e => v * (10 : ℚ) ^ e)
        | _ => none
    | [] => if ip = [] then none else some ipv
    | 'e' :: r4 =>
      if ip = [] then none else (parseExp r4).map (fun e => ipv * (10 : ℚ) ^ e)
    | 'E' :: r4 =>
      if ip = [] then none else (parseExp r4).map (fun e => ipv * (10 : ℚ) ^ e)
    | _ => none

/-- Signed float literal: the part of `float(s)` after whitespace stripping. -/
def pyFloatChars : List Char → Option ℚ
  | [] => none
  | c :: rest =>
    if c = '+' then pyFloatBody rest
    else if c = '-' then (pyFloatBody rest).map (fun v => -v)
    else pyFloatBody (c :: rest)

/-- Python `float(s)` on finite decimal literals. -/
def pyFloat (s : String) : Option ℚ :=
  pyFloatChars (stripChars s.data)

/-- Python `int(s)` as an expression that raises `ValueError` on failure. -/
def pyIntE (s : String) : Except String Int :=
  match pyInt s with
  | some n => Except.ok n
  | none => Except.error "ValueError: invalid literal for int"

/-- Python `float(s)` as an expression that raises `ValueError` on failure. -/
def pyFloatE (s : String) : Except String ℚ :=
  match pyFloat s with
  | some v => Except.ok v
  | none => Except.error "ValueError: could not convert string to float"

/-- Python `s[i]` for a non-negative index: raises `IndexError` out of range. -/
def pyCharAt (s : String) (i : Nat) : Except String Char :=
  match s.data.get? i with
  | some c => Except.ok c
  | none => Except.error "IndexError: string index out of range"

/-- Python slice `s[a:b]` for non-negative bounds (never raises). -/
def pySlice (s : String) (a b : Nat) : String :=
  String.mk ((s.data.drop a).take (b - a))

/-- Python slice `s[a:]` for a non-negative bound (never raises). -/
def pySliceFrom (s : String) (a : Nat) : String :=
  String.mk (s.data.drop a)

/-- Python `str.isdigit()` restricted to ASCII: non-empty and all digits. -/
def pyStrIsDigit (s : String) : Bool :=
  s.data ≠ [] ∧ s.data.all Char.isDigit

/-! ## Group decoders of `src/nhc_recon_parser/parser.py` -/

/-- Embedding of `parser.decode_pressure_height` (parser.py lines 21-51):
decodes the PnPnhnhnhn group, interpreting it as pressure or height from
its first digit. -/
def decode_pressure_height (group : String) : Except String (Option ℚ × Option ℚ) := do
  if group.length ≠ 5 then
    throw "ValueError: Invalid pressure/height group length, expected 5 digits."
  let c0 ← pyCharAt group 0
  let first_digit ← pyIntE (String.mk [c0])
  if 0 ≤ first_digit ∧ first_digit ≤ 5 then
    let v ← pyFloatE group
    return (some (v / 10), none)
  else if 6 ≤ first_digit ∧ first_digit ≤ 8 then
    let v ← pyFloatE group
    return (none, some (v * 10))
  else if first_digit = 9 then
    let v ← pyFloatE group
    return (some (((90000 : ℚ) + v) / 10), none)
  else
    throw "ValueError: Invalid first digit for pressure/height group"

/-- Embedding of `parser.decode_temp_dewpoint` (parser.py lines 53-80):
decodes the TTTaDD group into temperature and dew-point depression. -/
def decode_temp_dewpoint (group : String) : Except String (ℚ × ℚ) := do
  if group.length ≠ 5 then
    throw "ValueError: Invalid temperature/dew-point group length, expected 5 digits."
  let TTT ← pyIntE (pySlice group 0 3)
  let Ta ← pyIntE (pySlice group 3 4)
  let DD ← pyIntE (pySlice group 4 5)
  let temperature : ℚ ←
    if Ta = 0 then pure ((TTT : ℚ) / 10)
    else if Ta = 1 then pure (-(TTT : ℚ) / 10)
    else throw "ValueError: Invalid Ta indicator for temperature"
  return (temperature, (DD : ℚ) / 10)

/-- Embedding of `parser.decode_wind` (parser.py lines 82-108):
decodes the dddff group into wind direction and speed. -/
def decode_wind (group : String) : Except String (Option Int × Int) := do
  if group.length ≠ 5 then
    throw "ValueError: Invalid wind group length, expected 5 digits."
  let ddd ← pyIntE (pySlice group 0 3)
  let ff ← pyIntE (pySlice group 3 5)
  let wind_direction : Option Int :=
    if ddd = 0 then some 0
    else if ddd = 999 then none
    else some ddd
  return (wind_direction, ff)

namespace StacCatalog

/-- Embedding of `stac_catalog.main.decode_temp_dewpoint` (main.py lines 52-70):
this revision returns `(None, None)` on a malformed group and reads the last
TWO digits as a whole-degree dew-point depression.  The final wildcard arm is
unreachable: an all-digit string always converts. -/
def decode_temp_dewpoint (s : String) : Option (ℚ × Int) :=
  if s.length ≠ 5 ∨ ¬ pyStrIsDigit s then none
  else
    match pyFloat (pySlice s 0 3), pyInt (pySlice s 3 5) with
    | some t, some d => some (t / 10, d)
    | _, _ => none

end StacCatalog

/-! ## String utilities mirroring the Python methods used by the parser -/

/-- Helper for `pySplitChar`. -/
def splitOnCharAux (sep : Char) : List Char → List Char → List String
  | [], acc => [String.mk acc.reverse]
  | c :: rest, acc =>
    if c = sep then String.mk acc.reverse :: splitOnCharAux sep rest []
    else splitOnCharAux sep rest (c :: acc)

/-- Python `str.split(sep)` for a single-character separator (keeps empties). -/
def pySplitChar (s : String) (sep : Char) : List String :=
  splitOnCharAux sep s.data []

/-- Helper for `pyReplace`: replace non-overlapping occurrences, left to right.
When `old` is non-empty, `rest.drop (old.length - 1)` is what remains after
the matched occurrence. -/
def replaceAux (old new : List Char) : List Char → List Char
  | [] => []
  | c :: rest =>
    if old.isPrefixOf (c :: rest) ∧ old ≠ [] then
      new ++ replaceAux old new (rest.drop (old.length - 1))
    else
      c :: replaceAux old new rest
termination_by cs => cs.length
decreasing_by
  · simp only [List.length_drop, List.length_cons]
    omega
  · simp only [List.length_cons]
    omega

/-- Python `str.replace(old, new)` (all occurrences; `old` non-empty at every use site). -/
def pyReplace (s old new : String) : String :=
  String.mk (replaceAux old.data new.data s.data)

/-- Python `str.lower()` (ASCII scope). -/
def pyLower (s : String) : String := String.mk (s.data.map Char.toLower)

/-- Python `str.startswith(pre)`. -/
def pyStartsWith (s pre : String) : Bool := pre.data.isPrefixOf s.data

/-- Python `" ".join(parts)`. -/
def joinWithSpace (l : List String) : String :=
  String.mk (List.intercalate [' '] (l.map String.data))

/-- Python `l[-2]` on a list: raises `IndexError` when the list is shorter than 2. -/
def pyIndexNeg2 (l : List String) : Except String String :=
  if 2 ≤ l.length then
    match l.get? (l.length - 2) with
    | some x => Except.ok x
    | none => Except.error "IndexError: list index out of range"
  else Except.error "IndexError: list index out of range"

/-! ## Timestamp derivation: `urlparse(...).path`, `os.path.basename`, `strptime` -/

/-- Characters allowed in a URL scheme after the first letter. -/
def isSchemeChar (c : Char) : Bool := c.isAlphanum ∨ c = '+' ∨ c = '-' ∨ c = '.'

/-- Embedding of `urllib.parse.urlparse(url).path`: drop the fragment, a valid
scheme prefix, a `//netloc`, and the query, keeping the path component. -/
def urlparsePath (url : String) : String :=
  let cs := url.data.takeWhile (fun c => c ≠ '#')
  let cs :=
    let pre := cs.takeWhile (fun c => c ≠ ':')
    match pre with
    | [] => cs
    | p0 :: _ =>
      if pre.length < cs.length ∧ p0.isAlpha ∧ pre.all isSchemeChar then
        cs.drop (pre.length + 1)
      else cs
  let cs :=
    match cs with
    | '/' :: '/' :: rest => '/' :: rest.dropWhile (fun c => c ≠ '/' ∧ c ≠ '?')
    | _ => cs
  String.mk (cs.takeWhile (fun c => c ≠ '?'))

/-- Embedding of `os.path.basename`: the part after the last `/`. -/
def pyBasename (p : String) : String :=
  String.mk (p.data.reverse.takeWhile (fun c => c ≠ '/')).reverse

/-- Timezone-less UTC timestamp with minute precision, as produced by
`datetime.strptime(..., "%Y%m%d%H%M")`. -/
structure DateTime where
  year : Nat
  month : Nat
  day : Nat
  hour : Nat
  minute : Nat
deriving Repr, DecidableEq

/-- Alternatives for strptime `%m` (the CPython TimeRE regex `1[0-2]|0[1-9]|[1-9]`),
in backtracking order. -/
def strpMonthAlts : List Char → List (Nat × List Char)
  | c1 :: c2 :: rest =>
    (if c1 = '1' ∧ (c2 = '0' ∨ c2 = '1' ∨ c2 = '2') then [(10 + digitVal c2, rest)] else []) ++
    (if c1 = '0' ∧ c2.isDigit ∧ c2 ≠ '0' then [(digitVal c2, rest)] else []) ++
    (if c1.isDigit ∧ c1 ≠ '0' then [(digitVal c1, c2 :: rest)] else [])
  | [c1] => if c1.isDigit ∧ c1 ≠ '0' then [(digitVal c1, [])] else []
  | [] => []

/-- Alternatives for strptime `%d` (`3[01]|[12]\d|0[1-9]|[1-9]`). -/
def strpDayAlts : List Char → List (Nat × List Char)
  | c1 :: c2 :: rest =>
    (if c1 = '3' ∧ (c2 = '0' ∨ c2 = '1') then [(30 + digitVal c2, rest)] else []) ++
    (if (c1 = '1' ∨ c1 = '2') ∧ c2.isDigit then [(10 * digitVal c1 + digitVal c2, rest)] else []) ++
    (if c1 = '0' ∧ c2.isDigit ∧ c2 ≠ '0' then [(digitVal c2, rest)] else []) ++
    (if c1.isDigit ∧ c1 ≠ '0' then [(digitVal c1, c2 :: rest)] else [])
  | [c1] => if c1.isDigit ∧ c1 ≠ '0' then [(digitVal c1, [])] else []
  | [] => []

/-- Alternatives for strptime `%H` (`2[0-3]|[0-1]\d|\d`). -/
def strpHourAlts : List Char → List (Nat × List Char)
  | c1 :: c2 :: rest =>
    (if c1 = '2' ∧ (c2 = '0' ∨ c2 = '1' ∨ c2 = '2' ∨ c2 = '3') then [(20 + digitVal c2, rest)] else []) ++
    (if (c1 = '0' ∨ c1 = '1') ∧ c2.isDigit then [(10 * digitVal c1 + digitVal c2, rest)] else []) ++
    (if c1.isDigit then [(digitVal c1, c2 :: rest)] else [])
  | [c1] => if c1.isDigit then [(digitVal c1, [])] else []
  | [] => []

/-- Alternatives for strptime `%M` (`[0-5]\d|\d`). -/
def strpMinuteAlts : List Char → List (Nat × List Char)
  | c1 :: c2 :: rest =>
    (if c1.isDigit ∧ digitVal c1 ≤ 5 ∧ c2.isDigit then [(10 * digitVal c1 + digitVal c2, rest)] else []) ++
    (if c1.isDigit then [(digitVal c1, c2 :: rest)] else [])
  | [c1] => if c1.isDigit then [(digitVal c1, [])] else []
  | [] => []

/-- First alternative on which the continuation succeeds (regex backtracking order). -/
def firstSome {α β : Type} : List α → (α → Option β) → Option β
  | [], _ => none
  | a :: rest, f =>
    match f a with
    | some b => some b
    | none => firstSome rest f

/-- Embedding of `datetime.strptime(s, "%Y%m%d%H%M")`: `%Y` is exactly four
digits, the other fields follow the CPython TimeRE value-aware regexes with
backtracking, and the whole string must be consumed. -/
def strptimeYmdHM (s : String) : Option DateTime :=
  match s.data with
  | y1 :: y2 :: y3 :: y4 :: rest =>
    if y1.isDigit ∧ y2.isDigit ∧ y3.isDigit ∧ y4.isDigit then
      firstSome (strpMonthAlts rest) fun mr =>
        firstSome (strpDayAlts mr.2) fun dr =>
          firstSome (strpHourAlts dr.2) fun hr =>
            firstSome (strpMinuteAlts hr.2) fun nr =>
              if nr.2 = [] then
                some ⟨valOfDigits [y1, y2, y3, y4], mr.1, dr.1, hr.1, nr.1⟩
              else none
    else none
  | _ => none

/-- Embedding of the timestamp-derivation step of `parse_temp_drop`
(parser.py lines 124-133): basename of the URI path, second-to-last
dot-delimited token, `strptime`; an unparsable token falls back to the
current UTC time (`now`) with a warning, but a basename with fewer than two
dot-delimited tokens raises an uncaught `IndexError`. -/
def deriveMessageDate (uri : String) (now : DateTime) :
    Except String (DateTime × List String) := do
  let filename := pyBasename (urlparsePath uri)
  let datetime_str ← pyIndexNeg2 (pySplitChar filename '.')
  match strptimeYmdHM datetime_str with
  | some dt => return (dt, [])
  | none =>
    return (now, ["Warning: Could not parse datetime from filename: " ++ filename ++
      ". Using current UTC time."])

example : strptimeYmdHM "202401232347" = some ⟨2024, 1, 23, 23, 47⟩ := by decide
example : strptimeYmdHM "20240123234" = some ⟨2024, 1, 23, 23, 4⟩ := by decide
example : strptimeYmdHM "2024012" = none := by decide
example : strptimeYmdHM "nodigits" = none := by decide
example : deriveMessageDate "https://x.test/a/REPNT3-KNHC.202401232347.txt" ⟨2026, 1, 1, 0, 0⟩ =
    Except.ok (⟨2024, 1, 23, 23, 47⟩, []) := by decide
example : deriveMessageDate "foo" ⟨2026, 1, 1, 0, 0⟩ =
    Except.error "IndexError: list index out of range" := by decide

/-! ## Data model of the parsed report (the `parsed_data` dictionary) -/

/-- Embedding of `parsed_data["header"]`: a dictionary whose keys are added as
lines are decoded; a missing key is `none`. -/
structure Header where
  sonde_serial : Option String := none
  wmo_header : Option String := none
  icao_originator : Option String := none
  transmission_date_time_group : Option String := none
  part_a_hour : Option Int := none
  part_a_id_indicator : Option Int := none
  part_a_latitude : Option ℚ := none
  part_a_quadrant : Option Int := none
  part_a_longitude : Option ℚ := none
  part_a_marsden_square : Option Int := none
  part_a_ula : Option Int := none
  part_a_ulo : Option Int := none
  part_b_hour : Option Int := none
  part_b_id_indicator : Option Int := none
  part_b_latitude : Option ℚ := none
  part_b_quadrant : Option Int := none
  part_b_longitude : Option ℚ := none
  part_b_marsden_square : Option Int := none
  part_b_ula : Option Int := none
  part_b_ulo : Option Int := none
deriving Repr, DecidableEq

/-- Embedding of the `sounding_system_info` dictionary built from a 31313 line. -/
structure SoundingSystem where
  indicator_raw : String
  solar_ir_correction : Int
  radiosonde_system_used : Int
  tracking_technique_status : Int
  launch_time_indicator : Int
  launch_hour_utc : Int
  launch_minute_utc : Int
  solar_ir_correction_description : String
  radiosonde_system_description : String
  tracking_technique_description : String
deriving Repr, DecidableEq

/-- One entry of `parsed_data["part_a_mandatory_levels"]`. -/
structure MandLevel where
  pressure_mb : Option ℚ
  height_m : Option ℚ
  temperature_c : ℚ
  dew_point_depression_c : ℚ
  wind_direction_deg : Option Int
  wind_speed_kt : Int
deriving Repr, DecidableEq

/-- Embedding of `parsed_data["part_a_tropopause"]`. -/
inductive Tropopause where
  | not_observed : Tropopause
  | observed (pressure_mb : Int) (temperature_c : ℚ) (dew_point_depression_c : ℚ)
      (wind_direction_deg : Option Int) (wind_speed_kt : Int) : Tropopause
deriving Repr, DecidableEq

/-- Embedding of `parsed_data["part_a_max_wind"]`. -/
inductive MaxWind where
  | not_observed : MaxWind
  | observed (indicator : String) (pressure_mb : Int) (wind_direction_deg : Option Int)
      (wind_speed_kt : Int) (vertical_wind_shear : Option (Int × Int)) : MaxWind
deriving Repr, DecidableEq

/-- One entry of `parsed_data["part_b_significant_temp_humidity"]`. -/
structure SigTH where
  level_number : Int
  pressure_mb : Int
  temperature_c : ℚ
  dew_point_depression_c : ℚ
deriving Repr, DecidableEq

/-- One entry of `parsed_data["part_b_significant_wind"]`. -/
structure SigWind where
  level_number : Int
  pressure_mb : Int
  wind_direction_deg : Option Int
  wind_speed_kt : Int
deriving Repr, DecidableEq

/-- Embedding of the `parsed_mission_info` dictionary from a 61616 line. -/
structure MissionInfo where
  aircraft_identifier : Option String := none
  flight_mission_id : Option String := none
  intensive_observation_period : Option String := none
  storm_name : Option String := none
  observation_indicator : Option String := none
  storm_number : Option String := none
  additional_info : Option String := none
deriving Repr, DecidableEq

/-- Embedding of the `rel_parsed` / `spg_parsed` dictionaries (built with
whichever of their keys could be extracted). -/
structure RelParsed where
  time_string : Option String := none
  time_day : Option Int := none
  time_hour_utc : Option Int := none
  time_minute_utc : Option Int := none
  latitude : Option ℚ := none
  longitude : Option ℚ := none
  description : Option String := none
deriving Repr, DecidableEq

/-- Embedding of `mbl_wnd_parsed`. -/
structure MblWndParsed where
  time_utc_string : String
  wind_direction_deg : Int
  wind_speed_kt : Int
  altitude_feet : Int
deriving Repr, DecidableEq

/-- Embedding of `aev_parsed`. -/
structure AevParsed where
  time_utc_string : String
  latitude : ℚ
  longitude : ℚ
deriving Repr, DecidableEq

/-- Embedding of `dlm_wnd_parsed`. -/
structure DlmWndParsed where
  wind_direction_deg : Int
  wind_speed_kt : Int
  altitude_feet : Int
deriving Repr, DecidableEq

/-- Embedding of `wl_parsed`. -/
structure WlParsed where
  altitude_feet : Int
  wind_direction_deg : Int
  wind_speed_kt : Int
deriving Repr, DecidableEq

/-- Embedding of `eyewall_parsed`. -/
structure EyewallParsed where
  time_utc_string : String
  altitude_feet : Int
deriving Repr, DecidableEq

/-- Embedding of the `parsed_data["remarks"]` dictionary: each possible key is
an `Option` field, `none` meaning the key is absent. -/
structure Remarks where
  mission_info : Option String := none
  mission_info_parsed : Option MissionInfo := none
  initial_description : Option String := none
  mbl_wnd : Option String := none
  mbl_wnd_parsed : Option MblWndParsed := none
  aev : Option String := none
  aev_parsed : Option AevParsed := none
  dlm_wnd : Option String := none
  dlm_wnd_parsed : Option DlmWndParsed := none
  wl : Option String := none
  wl_parsed : Option WlParsed := none
  rel : Option String := none
  rel_parsed : Option RelParsed := none
  spg : Option String := none
  spg_parsed : Option RelParsed := none
  eyewall : Option String := none
  eyewall_parsed : Option EyewallParsed := none
deriving Repr, DecidableEq

/-- Embedding of the full `parsed_data` dictionary returned by
`parse_temp_drop`, with the `print`-ed warnings collected in `warnings`. -/
structure Report where
  uri : String
  message_date : DateTime
  header : Header
  part_a_mandatory_levels : List MandLevel
  part_a_tropopause : Option Tropopause
  part_a_max_wind : Option MaxWind
  part_a_sounding_system : Option SoundingSystem
  part_b_significant_temp_humidity : List SigTH
  part_b_significant_wind : List SigWind
  remarks : Remarks
  warnings : List String
deriving Repr, DecidableEq

/-! ## Matchers for the remark regular expressions

Each regular expression used on the remarks section is embedded as a dedicated
matcher: a `matchXAt` function decides a match anchored at the current
position, and `searchWith` scans positions left to right, which is exactly
`re.search` leftmost semantics for these patterns (their character classes are
disjoint from what follows them, so greedy maximal munch needs no
backtracking, except for the explicit two-or-three-digit alternative in the
MBL WND pattern). -/

/-- Leftmost-position search: try the anchored matcher at every suffix. -/
def searchWith {α : Type} (f : List Char → Option α) : List Char → Option α
  | [] => none
  | c :: rest =>
    match f (c :: rest) with
    | some r => some r
    | none => searchWith f rest

/-- Anchored match of `(\d{2}/\d{4}Z)`, returning the matched text. -/
def matchRelTimeAt (cs : List Char) : Option String :=
  match cs with
  | a :: b :: s :: c1 :: c2 :: c3 :: c4 :: z :: _ =>
    if a.isDigit ∧ b.isDigit ∧ s = '/' ∧ c1.isDigit ∧ c2.isDigit ∧ c3.isDigit ∧
        c4.isDigit ∧ z = 'Z' then
      some (String.mk [a, b, s, c1, c2, c3, c4, z])
    else none
  | _ => none

/-- Character class `[\d.]`. -/
def isNumDot (c : Char) : Bool := c.isDigit ∨ c = '.'

/-- Anchored match of `([\d.]+)([NS])\s+([\d.]+)([EW])`, returning the four
groups and the whole matched text (`group(0)`, used for `str.replace`). -/
def matchLatLonAt (cs : List Char) : Option (String × Char × String × Char × String) :=
  let r1 := cs.takeWhile isNumDot
  if r1 = [] then none
  else
    match cs.drop r1.length with
    | h1 :: rest2 =>
      if h1 = 'N' ∨ h1 = 'S' then
        let ws := rest2.takeWhile isPySpace
        if ws = [] then none
        else
          let rest3 := rest2.drop ws.length
          let r2 := rest3.takeWhile isNumDot
          if r2 = [] then none
          else
            match rest3.drop r2.length with
            | h2 :: _ =>
              if h2 = 'E' ∨ h2 = 'W' then
                some (String.mk r1, h1, String.mk r2, h2,
                  String.mk (r1 ++ [h1] ++ ws ++ r2 ++ [h2]))
              else none
            | [] => none
      else none
    | [] => none

/-- Tail of the MBL WND pattern: `\s+KNOTS AT (\d+)\s+FEET`. -/
def matchMblTail (cs : List Char) : Option String :=
  let ws := cs.takeWhile isPySpace
  if ws = [] then none
  else
    let r := cs.drop ws.length
    if "KNOTS AT ".data.isPrefixOf r then
      let r2 := r.drop 9
      let ds := r2.takeWhile Char.isDigit
      if ds = [] then none
      else
        let r3 := r2.drop ds.length
        let ws2 := r3.takeWhile isPySpace
        if ws2 = [] then none
        else if "FEET".data.isPrefixOf (r3.drop ws2.length) then some (String.mk ds)
        else none
    else none

/-- Anchored match of `(\d{4}Z)\s+(\d{3})/(\d{2,3})\s+KNOTS AT (\d+)\s+FEET`:
the speed group greedily tries three digits, then two. -/
def matchMblAt (cs : List Char) : Option (String × String × String × String) :=
  match cs with
  | c1 :: c2 :: c3 :: c4 :: 'Z' :: rest =>
    if c1.isDigit ∧ c2.isDigit ∧ c3.isDigit ∧ c4.isDigit then
      let ws1 := rest.takeWhile isPySpace
      if ws1 = [] then none
      else
        match rest.drop ws1.length with
        | d1 :: d2 :: d3 :: '/' :: rest3 =>
          if d1.isDigit ∧ d2.isDigit ∧ d3.isDigit then
            let g1 := String.mk [c1, c2, c3, c4, 'Z']
            let g2 := String.mk [d1, d2, d3]
            match rest3 with
            | f1 :: f2 :: rest4 =>
              if f1.isDigit ∧ f2.isDigit then
                (match rest4 with
                 | f3 :: rest5 =>
                   if f3.isDigit then
                     (matchMblTail rest5).map
                       (fun g4 => (g1, g2, String.mk [f1, f2, f3], g4))
                   else none
                 | [] => none) <|>
                  (matchMblTail rest4).map (fun g4 => (g1, g2, String.mk [f1, f2], g4))
              else none
            | _ => none
          else none
        | _ => none
    else none
  | _ => none

/-- Anchored match of `(\d{4}Z)\s+([\d.]+)([NS])\s+([\d.]+)([EW])\s+PSN`. -/
def matchAevAt (cs : List Char) : Option (String × String × Char × String × Char) :=
  match cs with
  | c1 :: c2 :: c3 :: c4 :: 'Z' :: rest =>
    if c1.isDigit ∧ c2.isDigit ∧ c3.isDigit ∧ c4.isDigit then
      let ws1 := rest.takeWhile isPySpace
      if ws1 = [] then none
      else
        let r1 := rest.drop ws1.length
        match matchLatLonAt r1 with
        | some (g2, h1, g3, h2, whole) =>
          let after := r1.drop whole.data.length
          let ws2 := after.takeWhile isPySpace
          if ws2 = [] then none
          else if "PSN".data.isPrefixOf (after.drop ws2.length) then
            some (String.mk [c1, c2, c3, c4, 'Z'], g2, h1, g3, h2)
          else none
        | none => none
    else none
  | _ => none

/-- Anchored match of `(\d{3})/(\d+)\s+at\s+(\d+)\s+FT`. -/
def matchDlmAt (cs : List Char) : Option (String × String × String) :=
  match cs with
  | d1 :: d2 :: d3 :: '/' :: rest =>
    if d1.isDigit ∧ d2.isDigit ∧ d3.isDigit then
      let fs := rest.takeWhile Char.isDigit
      if fs = [] then none
      else
        let r1 := rest.drop fs.length
        let ws1 := r1.takeWhile isPySpace
        if ws1 = [] then none
        else
          match r1.drop ws1.length with
          | 'a' :: 't' :: r2 =>
            let ws2 := r2.takeWhile isPySpace
            if ws2 = [] then none
            else
              let r3 := r2.drop ws2.length
              let alt := r3.takeWhile Char.isDigit
              if alt = [] then none
              else
                let r4 := r3.drop alt.length
                let ws3 := r4.takeWhile isPySpace
                if ws3 = [] then none
                else if "FT".data.isPrefixOf (r4.drop ws3.length) then
                  some (String.mk [d1, d2, d3], String.mk fs, String.mk alt)
                else none
          | _ => none
    else none
  | _ => none

/-- Anchored match of `(\d+)\s+FT\s+(\d{3})/(\d+)`. -/
def matchWlAt (cs : List Char) : Option (String × String × String) :=
  let ds := cs.takeWhile Char.isDigit
  if ds = [] then none
  else
    let r1 := cs.drop ds.length
    let ws1 := r1.takeWhile isPySpace
    if ws1 = [] then none
    else
      match r1.drop ws1.length with
      | 'F' :: 'T' :: r2 =>
        let ws2 := r2.takeWhile isPySpace
        if ws2 = [] then none
        else
          match r2.drop ws2.length with
          | d1 :: d2 :: d3 :: '/' :: r3 =>
            if d1.isDigit ∧ d2.isDigit ∧ d3.isDigit then
              let fs := r3.takeWhile Char.isDigit
              if fs = [] then none
              else some (String.mk ds, String.mk [d1, d2, d3], String.mk fs)
            else none
          | _ => none
      | _ => none

/-- Anchored match of `(\d{4}Z),\s+(\d+)\s+ft`. -/
def matchEyewallAt (cs : List Char) : Option (String × String) :=
  match cs with
  | c1 :: c2 :: c3 :: c4 :: 'Z' :: ',' :: rest =>
    if c1.isDigit ∧ c2.isDigit ∧ c3.isDigit ∧ c4.isDigit then
      let ws := rest.takeWhile isPySpace
      if ws = [] then none
      else
        let r := rest.drop ws.length
        let ds := r.takeWhile Char.isDigit
        if ds = [] then none
        else
          let r2 := r.drop ds.length
          let ws2 := r2.takeWhile isPySpace
          if ws2 = [] then none
          else if "ft".data.isPrefixOf (r2.drop ws2.length) then
            some (String.mk [c1, c2, c3, c4, 'Z'], String.mk ds)
          else none
    else none
  | _ => none

example : searchWith matchRelTimeAt "OB 12 REL 12/3456Z".data = some "12/3456Z" := by decide
example : searchWith matchLatLonAt "X 12.3N 45.6W Y".data =
    some ("12.3", 'N', "45.6", 'W', "12.3N 45.6W") := by decide
example : searchWith matchMblAt "1234Z 270/45 KNOTS AT 1500 FEET".data =
    some ("1234Z", "270", "45", "1500") := by decide
example : searchWith matchMblAt "1234Z 270/145 KNOTS AT 1500 FEET".data =
    some ("1234Z", "270", "145", "1500") := by decide
example : searchWith matchMblAt "NO MATCH HERE".data = none := by decide
example : searchWith matchDlmAt "270/045 at 1500 FT".data = some ("270", "045", "1500") := by decide
example : searchWith matchWlAt "1500 FT 270/45".data = some ("1500", "270", "45") := by decide
example : searchWith matchEyewallAt "1234Z, 8000 ft".data = some ("1234Z", "8000") := by decide

/-! ## Remark sub-parser (the 62626 handler) -/

/-- Known remark segment keys, in the alternation order of the
`re.split(r'(MBL WND|AEV|DLM WND|WL|REL|SPG|EYEWALL)', ...)` pattern. -/
def remarkKeys : List String := ["MBL WND", "AEV", "DLM WND", "WL", "REL", "SPG", "EYEWALL"]

/-- First remark key matching at this position, in alternation order. -/
def matchRemarkKey (cs : List Char) : Option String :=
  remarkKeys.find? (fun k => k.data.isPrefixOf cs)

theorem matchRemarkKey_length {cs : List Char} {k : String}
    (h : matchRemarkKey cs = some k) : 1 ≤ k.data.length := by
  have hmem : k ∈ remarkKeys := List.mem_of_find?_eq_some h
  fin_cases hmem <;> decide

set_option linter.unusedVariables false in
/-- Helper for `splitRemarks`: scan left to right, emitting the text before
each key occurrence, the key itself, and continuing after it. -/
def splitRemarksAux : List Char → List Char → List String
  | [], acc => [String.mk acc.reverse]
  | c :: rest, acc =>
    match h : matchRemarkKey (c :: rest) with
    | some k =>
      String.mk acc.reverse :: k :: splitRemarksAux ((c :: rest).drop k.data.length) []
    | none => splitRemarksAux rest (c :: acc)
termination_by cs _ => cs.length
decreasing_by
  · have := matchRemarkKey_length h
    simp only [List.length_drop, List.length_cons]
    omega
  · simp only [List.length_cons]
    omega

/-- Embedding of `re.split` with a capturing group over the remark keys:
the pieces between matches interleaved with the matched keys. -/
def splitRemarks (s : String) : List String := splitRemarksAux s.data []

/-- Dictionary-style string append used when a remark key recurs. -/
def appendSeg (o : Option String) (segment : String) : Option String :=
  match o with
  | some v => some (v ++ " " ++ segment)
  | none => some segment

/-- Embedding of the assignment `parsed_data["remarks"][current_key] = segment`
(with append on a repeated key); the key is the snake-cased remark key. -/
def assignRemark (r : Remarks) (key segment : String) : Remarks :=
  if key = "initial_description" then
    { r with initial_description := appendSeg r.initial_description segment }
  else if key = "mbl_wnd" then { r with mbl_wnd := appendSeg r.mbl_wnd segment }
  else if key = "aev" then { r with aev := appendSeg r.aev segment }
  else if key = "dlm_wnd" then { r with dlm_wnd := appendSeg r.dlm_wnd segment }
  else if key = "wl" then { r with wl := appendSeg r.wl segment }
  else if key = "rel" then { r with rel := appendSeg r.rel segment }
  else if key = "spg" then { r with spg := appendSeg r.spg segment }
  else if key = "eyewall" then { r with eyewall := appendSeg r.eyewall segment }
  else r

/-- Embedding of the segment loop of the 62626 handler (parser.py lines
351-367): keys switch the current key, other segments are assigned to it. -/
def remarkSegLoop : List String → Option String → Remarks → Remarks
  | [], _, r => r
  | seg :: rest, curKey, r =>
    let segment := pyStrip seg
    if segment = "" then remarkSegLoop rest curKey r
    else if remarkKeys.contains segment then
      remarkSegLoop rest (some (pyLower (pyReplace segment " " "_"))) r
    else
      match curKey with
      | some k => remarkSegLoop rest none (assignRemark r k segment)
      | none => remarkSegLoop rest none r

/-- Embedding of the REL / SPG secondary decode (parser.py lines 372-413 and
416-454): best-effort time and position extraction with the leftover text as
description.  The `float` calls on the position groups are not inside a
`try`, so their failure propagates as an uncaught `ValueError`. -/
def decodeRelLike (content0 : String) : Except String RelParsed := do
  let mut parsed : RelParsed := {}
  let mut content := content0
  match searchWith matchRelTimeAt content.data with
  | some ts =>
    parsed := { parsed with time_string := some ts }
    match pyInt (pySlice ts 0 2), pyInt (pySlice ts 3 5), pyInt (pySlice ts 5 7) with
    | some day, some hour, some minute =>
      parsed := { parsed with time_day := some day, time_hour_utc := some hour, time_minute_utc := some minute }
    | _, _, _ => pure ()
    content := pyStrip (pyReplace content ts "")
  | none => pure ()
  match searchWith matchLatLonAt content.data with
  | some (g1, hLat, g3, hLon, whole) =>
    let latAbs ← pyFloatE g1
    let lonAbs ← pyFloatE g3
    let latv := if hLat = 'S' then latAbs * (-1) else latAbs
    let lonv := if hLon = 'W' then lonAbs * (-1) else lonAbs
    parsed := { parsed with latitude := some latv, longitude := some lonv }
    content := pyStrip (pyReplace content whole "")
  | none => pure ()
  if content ≠ "" then
    parsed := { parsed with description := some content }
  return parsed

/-- Embedding of the 62626 remarks handler (parser.py lines 346-540): split on
the known keys, assign segments, then run each key's secondary decode.  For
MBL WND, AEV, DLM WND, WL and EYEWALL the raw entry is deleted whether or not
the secondary pattern matched. -/
def parseRemarksLine (line : String) (remarks0 : Remarks) : Except String Remarks := do
  let remark_string := pyStrip (pySliceFrom line 6)
  let segments := splitRemarks remark_string
  let mut remarks := remarkSegLoop segments (some "initial_description") remarks0
  match remarks.rel with
  | some relContent =>
    if relContent ≠ "" then
      let rp ← decodeRelLike relContent
      remarks := { remarks with rel_parsed := some rp, rel := none }
  | none => pure ()
  match remarks.spg with
  | some spgContent =>
    if spgContent ≠ "" then
      let sp ← decodeRelLike spgContent
      remarks := { remarks with spg_parsed := some sp, spg := none }
  | none => pure ()
  match remarks.mbl_wnd with
  | some s =>
    if s ≠ "" then
      match searchWith matchMblAt s.data with
      | some (g1, g2, g3, g4) =>
        let dir ← pyIntE g2
        let spd ← pyIntE g3
        let alt ← pyIntE g4
        remarks := { remarks with mbl_wnd_parsed := some ⟨g1, dir, spd, alt⟩ }
      | none => pure ()
      remarks := { remarks with mbl_wnd := none }
  | none => pure ()
  match remarks.aev with
  | some s =>
    if s ≠ "" then
      match searchWith matchAevAt s.data with
      | some (g1, g2, hLat, g3, hLon) =>
        let latAbs ← pyFloatE g2
        let lonAbs ← pyFloatE g3
        let latv := if hLat = 'S' then latAbs * (-1) else latAbs
        let lonv := if hLon = 'W' then lonAbs * (-1) else lonAbs
        remarks := { remarks with aev_parsed := some ⟨g1, latv, lonv⟩ }
      | none => pure ()
      remarks := { remarks with aev := none }
  | none => pure ()
  match remarks.dlm_wnd with
  | some s =>
    if s ≠ "" then
      match searchWith matchDlmAt s.data with
      | some (g1, g2, g3) =>
        let dir ← pyIntE g1
        let spd ← pyIntE g2
        let alt ← pyIntE g3
        remarks := { remarks with dlm_wnd_parsed := some ⟨dir, spd, alt⟩ }
      | none => pure ()
      remarks := { remarks with dlm_wnd := none }
  | none => pure ()
  match remarks.wl with
  | some s =>
    if s ≠ "" then
      match searchWith matchWlAt s.data with
      | some (g1, g2, g3) =>
        let alt ← pyIntE g1
        let dir ← pyIntE g2
        let spd ← pyIntE g3
        remarks := { remarks with wl_parsed := some ⟨alt, dir, spd⟩ }
      | none => pure ()
      remarks := { remarks with wl := none }
  | none => pure ()
  match remarks.eyewall with
  | some s =>
    if s ≠ "" then
      match searchWith matchEyewallAt s.data with
      | some (g1, g2) =>
        let alt ← pyIntE g2
        remarks := { remarks with eyewall_parsed := some ⟨g1, alt⟩ }
      | none => pure ()
      remarks := { remarks with eyewall := none }
  | none => pure ()
  return remarks

/-! ## Mission-info handler (the 61616 line) -/

/-- Heuristic `re.match(r'IOP\d+', part)`: starts with IOP then a digit. -/
def matchIOP (p : String) : Bool :=
  pyStartsWith p "IOP" &&
    (match p.data.drop 3 with
     | c :: _ => c.isDigit
     | [] => false)

/-- Heuristic `re.match(r'[A-Z]+', part)`: starts with an uppercase letter. -/
def startsUpper (p : String) : Bool :=
  match p.data with
  | c :: _ => 'A' ≤ c ∧ c ≤ 'Z'
  | [] => false

/-- Heuristic `re.match(r'\d{2}', part)`: starts with two digits. -/
def startsTwoDigits (p : String) : Bool :=
  match p.data with
  | a :: b :: _ => a.isDigit ∧ b.isDigit
  | _ => false

/-- Embedding of the optional-field loop of the 61616 handler (parser.py
lines 318-336), with the unmatched tokens accumulated as additional info. -/
def missionLoop : List String → MissionInfo → Bool → Bool → List String →
    MissionInfo × List String
  | [], mi, _, _, addl => (mi, addl)
  | part :: rest, mi, foundIOP, foundOB, addl =>
    if matchIOP part ∧ ¬ foundIOP then
      missionLoop rest { mi with intensive_observation_period := some part } true foundOB addl
    else if startsUpper part ∧ 1 < part.length ∧ ¬ foundIOP then
      missionLoop rest { mi with storm_name := some part } true foundOB addl
    else if part = "OB" ∧ ¬ foundOB then
      missionLoop rest { mi with observation_indicator := some part } foundIOP true addl
    else if startsTwoDigits part ∧ mi.observation_indicator = some "OB" ∧
        mi.storm_number = none then
      missionLoop rest { mi with storm_number := some part } foundIOP foundOB addl
    else
      missionLoop rest mi foundIOP foundOB (addl ++ [part])

/-- Embedding of the 61616 mission-info handler (parser.py lines 298-344),
returning the raw text and the heuristically parsed record. -/
def parseMissionInfoLine (line : String) : String × MissionInfo :=
  let raw_mission_info := pyStrip (pySliceFrom line 6)
  let parts := pySplitWs raw_mission_info
  let mi : MissionInfo := {}
  let mi :=
    match parts.get? 0 with
    | some p0 => { mi with aircraft_identifier := some p0 }
    | none => mi
  let mi :=
    match parts.get? 1 with
    | some p1 => { mi with flight_mission_id := some p1 }
    | none => mi
  let lp := missionLoop (parts.drop 2) mi false false []
  let mi := lp.1
  let mi :=
    if lp.2 ≠ [] then
      let joined := pyStrip (joinWithSpace lp.2)
      if joined = "" then mi else { mi with additional_info := some joined }
    else mi
  (raw_mission_info, mi)

/-! ## Section handlers -/

/-- Embedding of the 31313 sounding-system handler (parser.py lines 247-295):
all fields decode or none do (the dictionary is built inside one `try`), and
the human-readable descriptions are added from the code tables. -/
def parse31313Line (line : String) : Option SoundingSystem × List String :=
  let parts := pySplitWs line
  if 3 ≤ parts.length then
    let srrarasasa := parts.getD 1 ""
    let launch_time_group := parts.getD 2 ""
    match pyInt (pySlice srrarasasa 0 1), pyInt (pySlice srrarasasa 1 3),
      pyInt (pySlice srrarasasa 3 5), pyInt (pySlice launch_time_group 0 1),
      pyInt (pySlice launch_time_group 1 3), pyInt (pySlice launch_time_group 3 5) with
    | some sic, some rsys, some track, some lti, some lh, some lm =>
      (some {
        indicator_raw := srrarasasa
        solar_ir_correction := sic
        radiosonde_system_used := rsys
        tracking_technique_status := track
        launch_time_indicator := lti
        launch_hour_utc := lh
        launch_minute_utc := lm
        solar_ir_correction_description :=
          if sic = 0 then "No correction"
          else if sic = 1 then "Correction applied"
          else "Unknown or not applicable"
        radiosonde_system_description :=
          if rsys = 96 then "Descending radiosonde" else "Unknown or not specified"
        tracking_technique_description :=
          if track = 0 then "No tracking"
          else if track = 1 then "Radar"
          else if track = 2 then "Radio direction finding"
          else if track = 3 then "NAVAID (Omega, Loran-C)"
          else if track = 4 then "GPS"
          else if track = 5 then "Other satellite navigation"
          else if track = 6 then "Inertial"
          else if track = 7 then "Differential GPS"
          else if track = 8 then "Automatic satellite navigation"
          else "Unknown or not specified" }, [])
    | _, _, _, _, _, _ =>
      (none, ["Warning: Error parsing Section 7 (31313) line. Skipping sounding system details."])
  else (none, [])

/-- Embedding of the XXAA header handler (parser.py lines 176-210).  Field
assignments made before a caught `ValueError` are kept; the single-character
indexings `parts[1][4]`, `marsden[3]` and `marsden[4]` can raise an uncaught
`IndexError`, which propagates. -/
def parseXXAAHeader (hdr0 : Header) (line : String) : Except String (Header × List String) := do
  let parts := pySplitWs line
  let mut hdr := hdr0
  let warn := ["Warning: Error parsing XXAA header line. Skipping header details."]
  if 5 ≤ parts.length then
    let p1 := parts.getD 1 ""
    let lat_str := parts.getD 2 ""
    let lon_str := parts.getD 3 ""
    let marsden_str := parts.getD 4 ""
    match pyInt (pySlice p1 2 4) with
    | none => return (hdr, warn)
    | some hour => hdr := { hdr with part_a_hour := some hour }
    let c4 ← pyCharAt p1 4
    match pyInt (String.mk [c4]) with
    | none => return (hdr, warn)
    | some idv => hdr := { hdr with part_a_id_indicator := some idv }
    match pyFloat (pySliceFrom lat_str 2) with
    | none => return (hdr, warn)
    | some latv => hdr := { hdr with part_a_latitude := some (latv / 10) }
    let q0 ← pyCharAt lon_str 0
    let mut quadrant_a : Int := 0
    match pyInt (String.mk [q0]) with
    | none => return (hdr, warn)
    | some q =>
      quadrant_a := q
      hdr := { hdr with part_a_quadrant := some q }
    match pyFloat (pySliceFrom lon_str 1) with
    | none => return (hdr, warn)
    | some lonv => hdr := { hdr with part_a_longitude := some (lonv / 10) }
    if quadrant_a = 3 ∨ quadrant_a = 5 then
      hdr := { hdr with part_a_latitude := hdr.part_a_latitude.map (fun x => x * (-1)) }
    if quadrant_a = 5 ∨ quadrant_a = 7 then
      hdr := { hdr with part_a_longitude := hdr.part_a_longitude.map (fun x => x * (-1)) }
    match pyInt (pySlice marsden_str 0 3) with
    | none => return (hdr, warn)
    | some msq => hdr := { hdr with part_a_marsden_square := some msq }
    let m3 ← pyCharAt marsden_str 3
    match pyInt (String.mk [m3]) with
    | none => return (hdr, warn)
    | some ula => hdr := { hdr with part_a_ula := some ula }
    let m4 ← pyCharAt marsden_str 4
    match pyInt (String.mk [m4]) with
    | none => return (hdr, warn)
    | some ulo => hdr := { hdr with part_a_ulo := some ulo }
    return (hdr, [])
  else
    return (hdr, [])

/-- Embedding of the XXBB header handler (parser.py lines 213-244), the
symmetric decode into the Part B header fields. -/
def parseXXBBHeader (hdr0 : Header) (line : String) : Except String (Header × List String) := do
  let parts := pySplitWs line
  let mut hdr := hdr0
  let warn := ["Warning: Error parsing XXBB header line. Skipping header details."]
  if 5 ≤ parts.length then
    let p1 := parts.getD 1 ""
    let lat_str := parts.getD 2 ""
    let lon_str := parts.getD 3 ""
    let marsden_str := parts.getD 4 ""
    match pyInt (pySlice p1 2 4) with
    | none => return (hdr, warn)
    | some hour => hdr := { hdr with part_b_hour := some hour }
    let c4 ← pyCharAt p1 4
    match pyInt (String.mk [c4]) with
    | none => return (hdr, warn)
    | some idv => hdr := { hdr with part_b_id_indicator := some idv }
    match pyFloat (pySliceFrom lat_str 2) with
    | none => return (hdr, warn)
    | some latv => hdr := { hdr with part_b_latitude := some (latv / 10) }
    let q0 ← pyCharAt lon_str 0
    let mut quadrant_b : Int := 0
    match pyInt (String.mk [q0]) with
    | none => return (hdr, warn)
    | some q =>
      quadrant_b := q
      hdr := { hdr with part_b_quadrant := some q }
    match pyFloat (pySliceFrom lon_str 1) with
    | none => return (hdr, warn)
    | some lonv => hdr := { hdr with part_b_longitude := some (lonv / 10) }
    if quadrant_b = 3 ∨ quadrant_b = 5 then
      hdr := { hdr with part_b_latitude := hdr.part_b_latitude.map (fun x => x * (-1)) }
    if quadrant_b = 5 ∨ quadrant_b = 7 then
      hdr := { hdr with part_b_longitude := hdr.part_b_longitude.map (fun x => x * (-1)) }
    match pyInt (pySlice marsden_str 0 3) with
    | none => return (hdr, warn)
    | some msq => hdr := { hdr with part_b_marsden_square := some msq }
    let m3 ← pyCharAt marsden_str 3
    match pyInt (String.mk [m3]) with
    | none => return (hdr, warn)
    | some ula => hdr := { hdr with part_b_ula := some ula }
    let m4 ← pyCharAt marsden_str 4
    match pyInt (String.mk [m4]) with
    | none => return (hdr, warn)
    | some ulo => hdr := { hdr with part_b_ulo := some ulo }
    return (hdr, [])
  else
    return (hdr, [])

/-- Test for the Part A mandatory-level line pattern
`^(\d{5}\s+){2}\d{5}(\s+\d{5}\s+\d{5}\s+\d{5})*$`: on a stripped line this is
equivalent to splitting on whitespace runs and requiring at least three
groups, a multiple of three of them, all exactly five digits. -/
def isMandatoryLevelsLine (line : String) : Bool :=
  let gs := pySplitWs line
  3 ≤ gs.length ∧ gs.length % 3 = 0 ∧ gs.all (fun g => g.length = 5 ∧ g.data.all Char.isDigit)

/-- Test for the Part B significant-level line pattern
`^(\d{5}\s+){1}\d{5}(\s+\d{5}\s+\d{5})*$`: at least two groups, an even
number of them, all exactly five digits. -/
def isSignificantLevelsLine (line : String) : Bool :=
  let gs := pySplitWs line
  2 ≤ gs.length ∧ gs.length % 2 = 0 ∧ gs.all (fun g => g.length = 5 ∧ g.data.all Char.isDigit)

/-- Decode of one pressure/temperature/wind triple of a mandatory-level line. -/
def decodeMandTriple (g1 g2 g3 : String) : Except String MandLevel := do
  let ph ← decode_pressure_height g1
  let td ← decode_temp_dewpoint g2
  let w ← decode_wind g3
  return ⟨ph.1, ph.2, td.1, td.2, w.1, w.2⟩

/-- Complete leading triples of a list (the `j + 2 < len(groups)` chunks of
the `range(0, len(groups), 3)` loop). -/
def chunk3 {α : Type} : List α → List (α × α × α)
  | a :: b :: c :: rest => (a, b, c) :: chunk3 rest
  | _ => []

/-- Embedding of the triple-decoding loop over a mandatory-level line
(parser.py lines 549-567): each complete triple is decoded and appended; a
triple whose decode raises `ValueError` is skipped with a warning naming it. -/
def processMandatoryGroups : List String → List MandLevel × List String
  | g1 :: g2 :: g3 :: rest =>
    let p := processMandatoryGroups rest
    match decodeMandTriple g1 g2 g3 with
    | Except.ok lvl => (lvl :: p.1, p.2)
    | Except.error _ =>
      (p.1, ("Warning: Error parsing Part A mandatory level group " ++ g1 ++ " " ++ g2 ++
        " " ++ g3 ++ ". Skipping this group.") :: p.2)
  | _ => ([], [])

/-- Embedding of the pair-decoding loop over a Part B significant
temperature/humidity line (parser.py lines 621-638). -/
def processSigTempGroups : List String → List SigTH × List String
  | g1 :: g2 :: rest =>
    let p := processSigTempGroups rest
    match (do
      let ln ← pyIntE (pySlice g1 0 2)
      let pr ← pyIntE (pySlice g1 2 5)
      let td ← decode_temp_dewpoint g2
      Except.ok (⟨ln, pr, td.1, td.2⟩ : SigTH)) with
    | Except.ok v => (v :: p.1, p.2)
    | Except.error _ =>
      (p.1, ("Warning: Error parsing Part B significant temp/humidity group " ++ g1 ++ " " ++
        g2 ++ ". Skipping this group.") :: p.2)
  | _ => ([], [])

/-- Embedding of the pair-decoding loop over a 21212 significant-wind line
(parser.py lines 641-659). -/
def processSigWindGroups : List String → List SigWind × List String
  | g1 :: g2 :: rest =>
    let p := processSigWindGroups rest
    match (do
      let ln ← pyIntE (pySlice g1 0 2)
      let pr ← pyIntE (pySlice g1 2 5)
      let w ← decode_wind g2
      Except.ok (⟨ln, pr, w.1, w.2⟩ : SigWind)) with
    | Except.ok v => (v :: p.1, p.2)
    | Except.error _ =>
      (p.1, ("Warning: Error parsing Section 6 significant wind group " ++ g1 ++ " " ++ g2 ++
        ". Skipping this group.") :: p.2)
  | _ => ([], [])

/-- Embedding of the tropopause handler (parser.py lines 570-588): `88999`
marks it not observed; a decode failure leaves the previous value with a
warning. -/
def parseTropopauseLine (line : String) : Option Tropopause × List String :=
  let parts := pySplitWs line
  if parts.getD 0 "" = "88999" then (some Tropopause.not_observed, [])
  else if 3 ≤ parts.length then
    match (do
      let pr ← pyIntE (pySliceFrom (parts.getD 0 "") 2)
      let td ← decode_temp_dewpoint (parts.getD 1 "")
      let w ← decode_wind (parts.getD 2 "")
      Except.ok (Tropopause.observed pr td.1 td.2 w.1 w.2)) with
    | Except.ok t => (some t, [])
    | Except.error _ =>
      (none, ["Warning: Error parsing Section 3 (Tropopause) line. Skipping tropopause details."])
  else (none, [])

/-- Embedding of the maximum-wind handler (parser.py lines 591-615): `77999`
marks it not observed; an optional trailing `4vbvbvava` group adds the
vertical wind shear. -/
def parseMaxWindLine (line : String) : Option MaxWind × List String :=
  let parts := pySplitWs line
  if parts.getD 0 "" = "77999" then (some MaxWind.not_observed, [])
  else if 2 ≤ parts.length then
    match (do
      let pr ← pyIntE (pySliceFrom (parts.getD 0 "") 2)
      let w ← decode_wind (parts.getD 1 "")
      if 2 < parts.length ∧ pyStartsWith (parts.getD 2 "") "4" then
        let vb ← pyIntE (pySlice (parts.getD 2 "") 1 3)
        let va ← pyIntE (pySlice (parts.getD 2 "") 3 5)
        Except.ok (MaxWind.observed (pySlice (parts.getD 0 "") 0 2) pr w.1 w.2 (some (vb, va)))
      else
        Except.ok (MaxWind.observed (pySlice (parts.getD 0 "") 0 2) pr w.1 w.2 none)) with
    | Except.ok mw => (some mw, [])
    | Except.error _ =>
      (none, ["Warning: Error parsing Section 4 (Max Wind) line. Skipping max wind details."])
  else (none, [])

/-- Embedding of `parser.parse_temp_drop` (parser.py lines 110-661): derive the
message date from the URI, then walk the stripped non-empty lines in order
through the section state machine.  `now` stands for `datetime.now` in the
documented timestamp fallback; `print`-ed warnings are collected in the
report's `warnings` field; an uncaught Python exception is `Except.error`. -/
def parse_temp_drop (message uri : String) (now : DateTime) : Except String Report := do
  let dmd ← deriveMessageDate uri now
  let message_date := dmd.1
  let mut warnings := dmd.2
  let lines := ((pySplitChar message '\n').map pyStrip).filter (fun l => l ≠ "")
  let mut header : Header := {}
  let mut part_a_mandatory_levels : List MandLevel := []
  let mut part_a_tropopause : Option Tropopause := none
  let mut part_a_max_wind : Option MaxWind := none
  let mut part_a_sounding_system : Option SoundingSystem := none
  let mut part_b_significant_temp_humidity : List SigTH := []
  let mut part_b_significant_wind : List SigWind := []
  let mut remarks : Remarks := {}
  let mut part_a_active := false
  let mut part_b_active := false
  for iline in lines.enum do
    let i := iline.1
    let line := iline.2
    if i = 0 then
      header := { sonde_serial := some line }
      continue
    if i = 1 then
      let parts := pySplitWs line
      if 3 ≤ parts.length then
        header := { header with wmo_header := some (parts.getD 0 ""), icao_originator := some (parts.getD 1 ""), transmission_date_time_group := some (parts.getD 2 "") }
      continue
    if pyStartsWith line "XXAA" then
      part_a_active := true
      part_b_active := false
      let res ← parseXXAAHeader header line
      header := res.1
      warnings := warnings ++ res.2
      continue
    if pyStartsWith line "XXBB" then
      part_b_active := true
      part_a_active := false
      let res ← parseXXBBHeader header line
      header := res.1
      warnings := warnings ++ res.2
      continue
    if pyStartsWith line "31313" then
      let res := parse31313Line line
      match res.1 with
      | some ss => part_a_sounding_system := some ss
      | none => pure ()
      warnings := warnings ++ res.2
      continue
    if pyStartsWith line "61616" then
      let res := parseMissionInfoLine line
      remarks := { remarks with mission_info := some res.1, mission_info_parsed := some res.2 }
      continue
    if pyStartsWith line "62626" then
      remarks ← parseRemarksLine line remarks
      continue
    if part_a_active then
      if isMandatoryLevelsLine line then
        let res := processMandatoryGroups (pySplitWs line)
        part_a_mandatory_levels := part_a_mandatory_levels ++ res.1
        warnings := warnings ++ res.2
        continue
      if pyStartsWith line "88" then
        let res := parseTropopauseLine line
        match res.1 with
        | some t => part_a_tropopause := some t
        | none => pure ()
        warnings := warnings ++ res.2
        continue
      if pyStartsWith line "77" ∨ pyStartsWith line "66" then
        let res := parseMaxWindLine line
        match res.1 with
        | some mw => part_a_max_wind := some mw
        | none => pure ()
        warnings := warnings ++ res.2
        continue
    if part_b_active then
      if isSignificantLevelsLine line then
        let res := processSigTempGroups (pySplitWs line)
        part_b_significant_temp_humidity := part_b_significant_temp_humidity ++ res.1
        warnings := warnings ++ res.2
        continue
      if pyStartsWith line "21212" then
        let res := processSigWindGroups (pySplitWs (pyStrip (pySliceFrom line 6)))
        part_b_significant_wind := part_b_significant_wind ++ res.1
        warnings := warnings ++ res.2
        continue
  return {
    uri := uri
    message_date := message_date
    header := header
    part_a_mandatory_levels := part_a_mandatory_levels
    part_a_tropopause := part_a_tropopause
    part_a_max_wind := part_a_max_wind
    part_a_sounding_system := part_a_sounding_system
    part_b_significant_temp_humidity := part_b_significant_temp_humidity
    part_b_significant_wind := part_b_significant_wind
    remarks := remarks
    warnings := warnings }

/-! ## Metadata projection: `convert_dropsonde_to_stac_item` -/

/-- Zero-padded decimal rendering, two digits. -/
def pad2 (n : Nat) : String := if n < 10 then "0" ++ toString n else toString n

/-- Zero-padded decimal rendering, four digits. -/
def pad4 (n : Nat) : String :=
  if n < 10 then "000" ++ toString n
  else if n < 100 then "00" ++ toString n
  else if n < 1000 then "0" ++ toString n
  else toString n

/-- Python `datetime.isoformat()` for a timezone-aware UTC datetime with zero
seconds and microseconds. -/
def isoformatUTC (d : DateTime) : String :=
  pad4 d.year ++ "-" ++ pad2 d.month ++ "-" ++ pad2 d.day ++ "T" ++ pad2 d.hour ++ ":" ++
    pad2 d.minute ++ ":00+00:00"

/-- Embedding of the flat `properties` dictionary of the produced STAC item
(the `dropsonde:` prefix of the keys is dropped; the dynamically-keyed
mission-info entries are carried as the whole parsed record). -/
structure StacItemProperties where
  datetime_str : String
  icao_originator : Option String
  wmo_header : Option String
  radiosonde_system_description : Option String
  tracking_technique_description : Option String
  transmission_date_time_group : Option String
  launch_hour_utc : Option Int
  launch_minute_utc : Option Int
  latitude : Option ℚ
  longitude : Option ℚ
  marsden_square : Option Int
  mission_info_parsed : Option MissionInfo
  mission_info_raw : Option String
  remarks_mbl_wnd_parsed : Option MblWndParsed
  remarks_aev_parsed : Option AevParsed
  remarks_dlm_wnd_parsed : Option DlmWndParsed
  remarks_wl_parsed : Option WlParsed
  remarks_rel_parsed : Option RelParsed
  remarks_spg_parsed : Option RelParsed
  remarks_eyewall_parsed : Option EyewallParsed
  remarks_initial_description : Option String
deriving Repr, DecidableEq

/-- Embedding of the produced `pystac.Item`: identifier, point geometry as
`(longitude, latitude)`, bounding box, datetime, properties, the raw-message
asset href, and the `print`-ed log. -/
structure StacItem where
  id : String
  geometry : Option (ℚ × ℚ)
  bbox : Option (ℚ × ℚ × ℚ × ℚ)
  datetime : DateTime
  properties : StacItemProperties
  asset_href : String
  log : List String
deriving Repr, DecidableEq

/-- Embedding of `parser.convert_dropsonde_to_stac_item` (parser.py lines
664-773).  A `None` sounding system is replaced by an empty dictionary, so
every `get` on it yields `None` (here `Option.map` over the absent record);
the geometry comes from the Part A fix only, and a missing fix produces a
null geometry with a logged error. -/
def convert_dropsonde_to_stac_item (dropsonde_data : Report) : StacItem :=
  let header := dropsonde_data.header
  let pss := dropsonde_data.part_a_sounding_system
  let remarks := dropsonde_data.remarks
  let dt_utc_string :=
    pyReplace (pyReplace (isoformatUTC dropsonde_data.message_date) "+00:00" "Z") ":" "-"
  let stac_id := header.wmo_header.getD "unknown" ++ "-" ++
    header.icao_originator.getD "unknown" ++ "-" ++ dt_utc_string ++ "-dropsonde"
  let longitude := header.part_a_longitude
  let latitude := header.part_a_latitude
  let geometry : Option (ℚ × ℚ) :=
    match longitude, latitude with
    | some lo, some la => some (lo, la)
    | _, _ => none
  let bbox : Option (ℚ × ℚ × ℚ × ℚ) :=
    match longitude, latitude with
    | some lo, some la => some (lo, la, lo, la)
    | _, _ => none
  let log : List String :=
    match longitude, latitude with
    | some _, some _ => []
    | _, _ =>
      ["Error: Latitude or Longitude missing from dropsonde header. Cannot create valid geometry."]
  { id := stac_id
    geometry := geometry
    bbox := bbox
    datetime := dropsonde_data.message_date
    properties := {
      datetime_str := dt_utc_string
      icao_originator := header.icao_originator
      wmo_header := header.wmo_header
      radiosonde_system_description := pss.map (fun s => s.radiosonde_system_description)
      tracking_technique_description := pss.map (fun s => s.tracking_technique_description)
      transmission_date_time_group := header.transmission_date_time_group
      launch_hour_utc := pss.map (fun s => s.launch_hour_utc)
      launch_minute_utc := pss.map (fun s => s.launch_minute_utc)
      latitude := header.part_a_latitude
      longitude := header.part_a_longitude
      marsden_square := header.part_a_marsden_square
      mission_info_parsed := remarks.mission_info_parsed
      mission_info_raw :=
        if remarks.mission_info_parsed.isNone then remarks.mission_info else none
      remarks_mbl_wnd_parsed := remarks.mbl_wnd_parsed
      remarks_aev_parsed := remarks.aev_parsed
      remarks_dlm_wnd_parsed := remarks.dlm_wnd_parsed
      remarks_wl_parsed := remarks.wl_parsed
      remarks_rel_parsed := remarks.rel_parsed
      remarks_spg_parsed := remarks.spg_parsed
      remarks_eyewall_parsed := remarks.eyewall_parsed
      remarks_initial_description :=
        match remarks.initial_description with
        | some s => if pyStrip s ≠ "" then some (pyStrip s) else none
        | none => none }
    asset_href := dropsonde_data.uri
    log := log }

/-- Python dictionary key lookup: raises `KeyError` when the key is absent. -/
def dictGet {α : Type} (o : Option α) : Except String α :=
  match o with
  | some v => Except.ok v
  | none => Except.error "KeyError"

namespace StacCatalog

/-- Embedding of the per-report core of `stac_catalog.main.verify_lat_longs`
(main.py lines 387-406): assert that the Part A and Part B fixes are equal.
An `AssertionError` is caught and makes the function return `False`, but
reading a missing header key raises `KeyError`, which the
`except AssertionError` clause does not catch. -/
def verifyLatLongs (h : Header) : Except String Bool := do
  let aLat ← dictGet h.part_a_latitude
  let bLat ← dictGet h.part_b_latitude
  if aLat = bLat then
    let aLon ← dictGet h.part_a_longitude
    let bLon ← dictGet h.part_b_longitude
    if aLon = bLon then return true else return false
  else
    return false

end StacCatalog

/-! ## Concrete inputs used by the evaluation theorems -/

/-- Reference `now`, standing in for `datetime.now` in the timestamp fallback. -/
def testNow : DateTime := ⟨2026, 1, 1, 0, 0⟩

/-- Source identifier whose second-to-last dot-delimited token is a valid
`YYYYMMDDHHMM` timestamp. -/
def testUri : String := "REPNT3-KNHC.202401232347.txt"

/-- Message with a Part A position fix at (10.0, -80.0) and no Part B section. -/
def msgPartAOnly : String := "SERIAL123\nNOUS KNHC 010000\nXXAA 12001 99100 70800 12345"

/-- Message with a Part B position fix at (10.0, -80.0) and no Part A section. -/
def msgPartBOnly : String := "SERIAL123\nNOUS KNHC 010000\nXXBB 12008 99100 70800 12345"

/-- Message whose mandatory-level line has one malformed (non-digit) group in
its second triple and three well-formed groups in its first triple. -/
def msgBadDigitGroup : String :=
  "SERIAL123\nNOUS KNHC 010000\nXXAA 12001 99100 70800 12345\n10000 22606 00000 92500 2260A 00000"

/-- Message whose mandatory-level line is all digits, with an invalid
temperature-sign digit in its first triple and a valid second triple. -/
def msgBadSignGroup : String :=
  "SERIAL123\nNOUS KNHC 010000\nXXAA 12001 99100 70800 12345\n10000 22656 00000 92500 22606 12610"

/-- Message whose MBL WND remark segment does not match the secondary decode
pattern. -/
def msgMblNoMatch : String := "SERIAL123\nNOUS KNHC 010000\n62626 MBL WND NO MATCH HERE"

/-- Report with no decoded content. -/
def emptyReport : Report :=
  { uri := "u"
    message_date := testNow
    header := {}
    part_a_mandatory_levels := []
    part_a_tropopause := none
    part_a_max_wind := none
    part_a_sounding_system := none
    part_b_significant_temp_humidity := []
    part_b_significant_wind := []
    remarks := {}
    warnings := [] }

/-! ## Reduction lemmas for the `Except` do-notation -/

@[simp] theorem except_bind_ok {ε α β : Type} (a : α) (f : α → Except ε β) :
    (Except.ok a : Except ε α) >>= f = f a := rfl

@[simp] theorem except_bind_error {ε α β : Type} (e : ε) (f : α → Except ε β) :
    (Except.error e : Except ε α) >>= f = Except.error e := rfl

@[simp] theorem except_throw {ε α : Type} (e : ε) :
    (throw e : Except ε α) = Except.error e := rfl

@[simp] theorem except_pure {ε α : Type} (a : α) :
    (pure a : Except ε α) = Except.ok a := rfl

@[simp] theorem except_map_ok {ε α β : Type} (f : α → β) (a : α) :
    (Except.ok a : Except ε α).map f = Except.ok (f a) := rfl

@[simp] theorem except_map_error {ε α β : Type} (f : α → β) (e : ε) :
    (Except.error e : Except ε α).map f = Except.error e := rfl

/-! ## Facts about the Python primitives on all-digit input -/

theorem isPySpace_of_isDigit {c : Char} (h : c.isDigit = true) : isPySpace c = false := by
  unfold isPySpace
  simp only [decide_eq_false_iff_not]
  intro hor
  rcases hor with rfl | rfl | rfl | rfl | rfl | rfl <;> exact absurd h (by decide)

theorem ne_plus_of_isDigit {c : Char} (h : c.isDigit = true) : ¬ c = '+' := by
  rintro rfl
  exact absurd h (by decide)

theorem ne_minus_of_isDigit {c : Char} (h : c.isDigit = true) : ¬ c = '-' := by
  rintro rfl
  exact absurd h (by decide)

theorem ne_underscore_of_isDigit {c : Char} (h : c.isDigit = true) : ¬ c = '_' := by
  rintro rfl
  exact absurd h (by decide)

theorem dropWhile_eq_self_of_all {p : Char → Bool} {cs : List Char}
    (h : ∀ c ∈ cs, p c = false) : cs.dropWhile p = cs := by
  cases cs with
  | nil => rfl
  | cons a l => simp [List.dropWhile_cons, h a (by simp)]

theorem stripChars_eq_self {cs : List Char} (h : ∀ c ∈ cs, isPySpace c = false) :
    stripChars cs = cs := by
  unfold stripChars
  rw [dropWhile_eq_self_of_all h, dropWhile_eq_self_of_all, List.reverse_reverse]
  intro c hc
  exact h c (List.mem_reverse.mp hc)

theorem digitsValAux_all_digits : ∀ (cs : List Char) (acc : Nat),
    (∀ c ∈ cs, c.isDigit = true) →
    digitsValAux acc cs = some (cs.foldl (fun a c => 10 * a + digitVal c) acc)
  | [], _, _ => rfl
  | c :: rest, acc, h => by
    have hc : c.isDigit = true := h c (by simp)
    simp only [digitsValAux, if_pos hc, List.foldl_cons]
    exact digitsValAux_all_digits rest _ (fun x hx => h x (by simp [hx]))

theorem digitsVal_all_digits {cs : List Char} (hne : cs ≠ [])
    (h : ∀ c ∈ cs, c.isDigit = true) : digitsVal cs = some (valOfDigits cs) := by
  cases cs with
  | nil => exact absurd rfl hne
  | cons c rest =>
    have hc : c.isDigit = true := h c (by simp)
    simp only [digitsVal, if_pos hc]
    exact digitsValAux_all_digits _ _ h

theorem pyIntChars_all_digits {cs : List Char} (hne : cs ≠ [])
    (h : ∀ c ∈ cs, c.isDigit = true) : pyIntChars cs = some ((valOfDigits cs : ℤ)) := by
  cases cs with
  | nil => exact absurd rfl hne
  | cons c rest =>
    have hc : c.isDigit = true := h c (by simp)
    simp only [pyIntChars, if_neg (ne_plus_of_isDigit hc), if_neg (ne_minus_of_isDigit hc),
      digitsVal_all_digits (by simp) h, Option.map_some']
    rfl

theorem pyInt_mk_all_digits {cs : List Char} (hne : cs ≠ [])
    (h : ∀ c ∈ cs, c.isDigit = true) : pyInt (String.mk cs) = some ((valOfDigits cs : ℤ)) := by
  unfold pyInt
  rw [show (String.mk cs).data = cs from rfl,
    stripChars_eq_self (fun c hc => isPySpace_of_isDigit (h c hc)),
    pyIntChars_all_digits hne h]

theorem pyIntE_mk_all_digits {cs : List Char} (hne : cs ≠ [])
    (h : ∀ c ∈ cs, c.isDigit = true) :
    pyIntE (String.mk cs) = Except.ok ((valOfDigits cs : ℤ)) := by
  unfold pyIntE
  rw [pyInt_mk_all_digits hne h]

theorem splitDigitsUS_all_digits {cs : List Char} (h : ∀ c ∈ cs, c.isDigit = true) :
    splitDigitsUS cs = (cs, []) := by
  induction cs with
  | nil => rfl
  | cons c rest ih =>
    have hc : c.isDigit = true := h c (by simp)
    simp only [splitDigitsUS, if_pos (Or.inl hc)]
    rw [ih (fun x hx => h x (by simp [hx]))]

theorem filter_ne_underscore {cs : List Char} (h : ∀ c ∈ cs, c.isDigit = true) :
    cs.filter (fun c => c ≠ '_') = cs := by
  rw [List.filter_eq_self]
  intro a ha
  simpa using ne_underscore_of_isDigit (h a ha)

theorem pyFloatBody_all_digits {cs : List Char} (hne : cs ≠ [])
    (h : ∀ c ∈ cs, c.isDigit = true) : pyFloatBody cs = some ((valOfDigits cs : ℚ)) := by
  unfold pyFloatBody
  rw [splitDigitsUS_all_digits h]
  simp [digitsVal_all_digits hne h, hne, filter_ne_underscore h]
  congr 1
  rw [List.filter_eq_self]
  intro a ha
  simpa using ne_underscore_of_isDigit (h a ha)

theorem pyFloatChars_all_digits {cs : List Char} (hne : cs ≠ [])
    (h : ∀ c ∈ cs, c.isDigit = true) : pyFloatChars cs = some ((valOfDigits cs : ℚ)) := by
  cases cs with
  | nil => exact absurd rfl hne
  | cons c rest =>
    have hc : c.isDigit = true := h c (by simp)
    simp only [pyFloatChars, if_neg (ne_plus_of_isDigit hc), if_neg (ne_minus_of_isDigit hc)]
    exact pyFloatBody_all_digits (by simp) h

theorem pyFloat_mk_all_digits {cs : List Char} (hne : cs ≠ [])
    (h : ∀ c ∈ cs, c.isDigit = true) : pyFloat (String.mk cs) = some ((valOfDigits cs : ℚ)) := by
  unfold pyFloat
  rw [show (String.mk cs).data = cs from rfl,
    stripChars_eq_self (fun c hc => isPySpace_of_isDigit (h c hc)),
    pyFloatChars_all_digits hne h]

theorem pyFloatE_mk_all_digits {cs : List Char} (hne : cs ≠ [])
    (h : ∀ c ∈ cs, c.isDigit = true) :
    pyFloatE (String.mk cs) = Except.ok ((valOfDigits cs : ℚ)) := by
  unfold pyFloatE
  rw [pyFloat_mk_all_digits hne h]

theorem valOfDigits_singleton (c : Char) : valOfDigits [c] = digitVal c := by
  simp [valOfDigits]

example : decode_wind "00000" = Except.ok (some 0, 0) := by with_unfolding_all rfl
example : decode_wind "99912" = Except.ok (none, 12) := by with_unfolding_all rfl
example : decode_temp_dewpoint "22606" = Except.ok (113/5, 3/5) := by with_unfolding_all rfl
example : decode_pressure_height "10000" = Except.ok (some 1000, none) := by with_unfolding_all rfl
example : decode_pressure_height "92500" = Except.ok (some 18250, none) := by with_unfolding_all rfl
example : decode_pressure_height "70800" = Except.ok (none, some 708000) := by with_unfolding_all rfl
example : StacCatalog.decode_temp_dewpoint "22606" = some (113/5, 6) := by with_unfolding_all rfl

/-! ## Claim theorems -/

/-- Claim C1, counterexample.  The claim says that, when exactly one of the
Part A / Part B position fixes is present, the missing slot is filled with a
copy of the present fix.  On a message with only a Part A fix at
(10.0, -80.0) the assembled report's Part B slots stay absent: nothing is
copied. -/
theorem C1_no_fill_counterexample :
    (parse_temp_drop msgPartAOnly testUri testNow).map
      (fun r => (r.header.part_a_latitude, r.header.part_b_latitude, r.header.part_b_longitude)) =
    Except.ok (some 10, none, none) := by with_unfolding_all rfl

/-- Claim C1, amended.  No reconciliation happens after the lines are
processed: with only a Part A fix present, the report keeps the Part B slots
absent, and the verification step (`verify_lat_longs`) raises an uncaught
`KeyError` on such a report instead of recording a "filled-from-A" or
"mismatch" flag. -/
theorem C1_missing_fix_amended :
    (parse_temp_drop msgPartAOnly testUri testNow).map
      (fun r => (r.header.part_a_latitude, r.header.part_a_longitude, r.header.part_b_latitude,
        r.header.part_b_longitude, StacCatalog.verifyLatLongs r.header)) =
    Except.ok (some 10, some (-80), none, none, Except.error "KeyError") := by
  with_unfolding_all rfl

/-- Claim C2, counterexample.  The claim says a non-digit character in one
5-digit group of a mandatory-level line drops only that group, with a logged
warning, the remaining well-formed groups still being decoded.  On a message
whose mandatory-level line is `10000 22606 00000 92500 2260A 00000` (first
triple well-formed, second triple containing the non-digit group `2260A`) the
line fails the all-digit line pattern, so NOTHING is decoded and NO warning
is logged: the mandatory-level sequence stays empty. -/
theorem C2_nondigit_line_counterexample :
    (parse_temp_drop msgBadDigitGroup testUri testNow).map
      (fun r => (r.part_a_mandatory_levels, r.warnings)) = Except.ok ([], []) := by
  with_unfolding_all rfl

/-- Claim C2, amended.  Only on a line that matches the mandatory-level
pattern (all groups being exactly five digits) does per-group error recovery
apply, and it drops whole triples: the appended entries are exactly the
triples whose decode succeeds (e.g. an invalid temperature-sign digit loses
its triple), and each failed triple logs exactly one warning.  A line
containing a non-digit character does not match the pattern and is skipped
whole, silently. -/
theorem C2_triple_drop_amended : ∀ gs : List String,
    (processMandatoryGroups gs).1 =
      (chunk3 gs).filterMap (fun t => (decodeMandTriple t.1 t.2.1 t.2.2).toOption) ∧
    ((processMandatoryGroups gs).2).length + ((processMandatoryGroups gs).1).length =
      (chunk3 gs).length
  | g1 :: g2 :: g3 :: rest => by
    have ih := C2_triple_drop_amended rest
    cases hdec : decodeMandTriple g1 g2 g3 with
    | ok lvl =>
      refine ⟨?_, ?_⟩
      · simp [processMandatoryGroups, chunk3, hdec, Except.toOption, ih.1]
      · simp only [processMandatoryGroups, chunk3, hdec, List.length_cons]
        omega
    | error e =>
      refine ⟨?_, ?_⟩
      · simp [processMandatoryGroups, chunk3, hdec, Except.toOption, ih.1]
      · simp only [processMandatoryGroups, chunk3, hdec, List.length_cons]
        omega
  | [] => by simp [processMandatoryGroups, chunk3]
  | [g] => by simp [processMandatoryGroups, chunk3]
  | [g1, g2] => by simp [processMandatoryGroups, chunk3]

/-- Claim C3, counterexample.  The claim says `decode_temp_dewpoint` returns
the fifth digit as the dew-point depression in whole degrees Celsius.  On
"22606" the fifth digit is 6, but the function returns 6/10 = 0.6, which is
not 6. -/
theorem C3_whole_degrees_counterexample :
    decode_temp_dewpoint "22606" = Except.ok (113/5, 3/5) ∧ ((3 : ℚ)/5) ≠ 6 :=
  ⟨by with_unfolding_all rfl, by norm_num⟩

/-- Claim C3, amended.  For every valid 5-digit group with a valid sign
digit, the canonical `decode_temp_dewpoint` returns the fifth digit divided
by ten — the dew-point depression in TENTHS of a degree Celsius — while the
`stac_catalog` revision instead returns the integer value of the last TWO
digits as whole degrees. -/
theorem C3_tenths_amended (a b c d e : Char) (ha : a.isDigit = true) (hb : b.isDigit = true)
    (hc : c.isDigit = true) (hd : d.isDigit = true) (he : e.isDigit = true)
    (hTa : digitVal d ≤ 1) :
    (decode_temp_dewpoint (String.mk [a, b, c, d, e])).map Prod.snd =
      Except.ok ((digitVal e : ℚ) / 10) ∧
    (StacCatalog.decode_temp_dewpoint (String.mk [a, b, c, d, e])).map Prod.snd =
      some ((valOfDigits [d, e] : ℤ)) := by
  have h3 : ∀ x ∈ [a, b, c], x.isDigit = true := by
    intro x hx
    simp only [List.mem_cons, List.not_mem_nil, or_false] at hx
    rcases hx with rfl | rfl | rfl <;> assumption
  have h2 : ∀ x ∈ [d, e], x.isDigit = true := by
    intro x hx
    simp only [List.mem_cons, List.not_mem_nil, or_false] at hx
    rcases hx with rfl | rfl <;> assumption
  constructor
  · have hlen : ¬ ((String.mk [a, b, c, d, e]).length ≠ 5) := by simp [String.length]
    have hTTT : pyIntE (pySlice (String.mk [a, b, c, d, e]) 0 3) =
        Except.ok ((valOfDigits [a, b, c] : ℤ)) := by
      rw [show pySlice (String.mk [a, b, c, d, e]) 0 3 = String.mk [a, b, c] from rfl]
      exact pyIntE_mk_all_digits (by simp) h3
    have hTa' : pyIntE (pySlice (String.mk [a, b, c, d, e]) 3 4) =
        Except.ok ((digitVal d : ℤ)) := by
      rw [show pySlice (String.mk [a, b, c, d, e]) 3 4 = String.mk [d] from rfl,
        pyIntE_mk_all_digits (by simp) (by intro x hx; simp at hx; subst hx; exact hd),
        valOfDigits_singleton]
    have hDD : pyIntE (pySlice (String.mk [a, b, c, d, e]) 4 5) =
        Except.ok ((digitVal e : ℤ)) := by
      rw [show pySlice (String.mk [a, b, c, d, e]) 4 5 = String.mk [e] from rfl,
        pyIntE_mk_all_digits (by simp) (by intro x hx; simp at hx; subst hx; exact he),
        valOfDigits_singleton]
    unfold decode_temp_dewpoint
    rw [if_neg hlen]
    simp only [hTTT, hTa', hDD, except_bind_ok, except_pure]
    have hcase : digitVal d = 0 ∨ digitVal d = 1 := by omega
    rcases hcase with h0 | h1
    · rw [if_pos (by exact_mod_cast h0)]
      with_unfolding_all rfl
    · rw [if_neg (by omega), if_pos (by exact_mod_cast h1)]
      with_unfolding_all rfl
  · have hdig : pyStrIsDigit (String.mk [a, b, c, d, e]) = true := by
      simp [pyStrIsDigit, ha, hb, hc, hd, he]
    have hf3 : pyFloat (pySlice (String.mk [a, b, c, d, e]) 0 3) =
        some ((valOfDigits [a, b, c] : ℚ)) := by
      rw [show pySlice (String.mk [a, b, c, d, e]) 0 3 = String.mk [a, b, c] from rfl]
      exact pyFloat_mk_all_digits (by simp) h3
    have hi2 : pyInt (pySlice (String.mk [a, b, c, d, e]) 3 5) =
        some ((valOfDigits [d, e] : ℤ)) := by
      rw [show pySlice (String.mk [a, b, c, d, e]) 3 5 = String.mk [d, e] from rfl]
      exact pyInt_mk_all_digits (by simp) h2
    unfold StacCatalog.decode_temp_dewpoint
    rw [if_neg (by simp [String.length, hdig])]
    rw [hf3, hi2]
    rfl

/-- Witness for C3: the amended claim evaluated at the group "22606" — the
returned depression is the fifth digit over ten. -/
theorem C3_tenths_witness :
    (decode_temp_dewpoint (String.mk ['2', '2', '6', '0', '6'])).map Prod.snd =
      Except.ok ((digitVal '6' : ℚ) / 10) ∧
    (StacCatalog.decode_temp_dewpoint (String.mk ['2', '2', '6', '0', '6'])).map Prod.snd =
      some ((valOfDigits ['0', '6'] : ℤ)) :=
  C3_tenths_amended '2' '2' '6' '0' '6' (by decide) (by decide) (by decide) (by decide)
    (by decide) (by decide)

/-- Claim C4 (code bug), evaluation at the failing input.  The claim — and
the source's own comments ("Remove original raw 'mbl_wnd' entry if parsed") —
say a remark segment whose secondary decode pattern does not match keeps its
raw text under its key.  On the message whose remarks line is
`62626 MBL WND NO MATCH HERE`, the segment "NO MATCH HERE" is assigned to the
`mbl_wnd` key, the secondary pattern does not match, and the code deletes the
raw entry anyway: the final remark set has neither `mbl_wnd` nor
`mbl_wnd_parsed`, so the segment is dropped entirely. -/
theorem C4_mbl_wnd_dropped_eval :
    (parse_temp_drop msgMblNoMatch testUri testNow).map
      (fun r => (r.remarks.mbl_wnd, r.remarks.mbl_wnd_parsed, r.remarks.initial_description)) =
    Except.ok (none, none, none) := by with_unfolding_all rfl

/-- Claim C5, counterexample.  The claim says each decoder rejects every
5-character input containing a non-digit character.  `decode_wind "+1234"`
contains the non-digit '+', yet is decoded without error (Python's `int`
accepts a leading sign). -/
theorem C5_nondigit_accepted_counterexample :
    "+1234".length = 5 ∧ '+' ∈ "+1234".data ∧ '+'.isDigit = false ∧
    decode_wind "+1234" = Except.ok (some 12, 34) :=
  ⟨by decide, by decide, by decide, by with_unfolding_all rfl⟩

/-- Claim C5, amended.  Every decoder rejects an input whose length is not
exactly 5, with a dedicated per-decoder length error; non-digit characters
are rejected only when the underlying `int()`/`float()` conversion fails, so
sign characters and similar are accepted (see the counterexample). -/
theorem C5_length_amended (s : String) (h : s.length ≠ 5) :
    decode_pressure_height s =
      Except.error "ValueError: Invalid pressure/height group length, expected 5 digits." ∧
    decode_temp_dewpoint s =
      Except.error "ValueError: Invalid temperature/dew-point group length, expected 5 digits." ∧
    decode_wind s = Except.error "ValueError: Invalid wind group length, expected 5 digits." := by
  unfold decode_pressure_height decode_temp_dewpoint decode_wind
  refine ⟨?_, ?_, ?_⟩ <;> rw [if_pos h] <;> simp

/-- Witness for C5: the amended claim evaluated at the 4-character input
"1234". -/
theorem C5_length_witness :
    decode_pressure_height "1234" =
      Except.error "ValueError: Invalid pressure/height group length, expected 5 digits." ∧
    decode_temp_dewpoint "1234" =
      Except.error "ValueError: Invalid temperature/dew-point group length, expected 5 digits." ∧
    decode_wind "1234" = Except.error "ValueError: Invalid wind group length, expected 5 digits." :=
  C5_length_amended "1234" (by decide)

/-- Claim C6: for every 5-character group of decimal digits,
`decode_pressure_height` returns pressure = value/10 with height absent when
the leading digit is 0-5, height = value×10 with pressure absent when it is
6-8, and pressure = (90000+value)/10 with height absent when it is 9. -/
theorem C6_pressure_height (a b c d e : Char) (ha : a.isDigit = true) (hb : b.isDigit = true)
    (hc : c.isDigit = true) (hd : d.isDigit = true) (he : e.isDigit = true) :
    (digitVal a ≤ 5 →
      decode_pressure_height (String.mk [a, b, c, d, e]) =
        Except.ok (some ((valOfDigits [a, b, c, d, e] : ℚ) / 10), none)) ∧
    (6 ≤ digitVal a → digitVal a ≤ 8 →
      decode_pressure_height (String.mk [a, b, c, d, e]) =
        Except.ok (none, some ((valOfDigits [a, b, c, d, e] : ℚ) * 10))) ∧
    (digitVal a = 9 →
      decode_pressure_height (String.mk [a, b, c, d, e]) =
        Except.ok (some ((90000 + (valOfDigits [a, b, c, d, e] : ℚ)) / 10), none)) := by
  have hall : ∀ x ∈ [a, b, c, d, e], x.isDigit = true := by
    intro x hx
    simp only [List.mem_cons, List.not_mem_nil, or_false] at hx
    rcases hx with rfl | rfl | rfl | rfl | rfl <;> assumption
  have hlen : ¬ ((String.mk [a, b, c, d, e]).length ≠ 5) := by simp [String.length]
  have hchar : pyCharAt (String.mk [a, b, c, d, e]) 0 = Except.ok a := rfl
  have hfd : pyIntE (String.mk [a]) = Except.ok ((digitVal a : ℤ)) := by
    rw [pyIntE_mk_all_digits (by simp) (by intro x hx; simp at hx; subst hx; exact ha),
      valOfDigits_singleton]
  have hfl : pyFloatE (String.mk [a, b, c, d, e]) =
      Except.ok ((valOfDigits [a, b, c, d, e] : ℚ)) :=
    pyFloatE_mk_all_digits (by simp) hall
  unfold decode_pressure_height
  rw [if_neg hlen]
  simp only [hchar, except_bind_ok, except_pure, hfd, hfl]
  refine ⟨fun h5 => ?_, fun h6 h8 => ?_, fun h9 => ?_⟩
  · rw [if_pos ⟨Int.ofNat_nonneg _, by exact_mod_cast h5⟩]
  · rw [if_neg (by omega), if_pos ⟨by exact_mod_cast h6, by exact_mod_cast h8⟩]
  · rw [if_neg (by omega), if_neg (by omega), if_pos (by exact_mod_cast h9)]

/-- Witness for C6: the group "10000" decodes to pressure 1000.0 hPa with
height absent. -/
theorem C6_pressure_height_witness :
    decode_pressure_height (String.mk ['1', '0', '0', '0', '0']) =
      Except.ok (some ((valOfDigits ['1', '0', '0', '0', '0'] : ℚ) / 10), none) :=
  (C6_pressure_height '1' '0' '0' '0' '0' (by decide) (by decide) (by decide) (by decide)
    (by decide)).1 (by decide)

/-- Claim C7: for every 5-character group of decimal digits, `decode_wind`
reads the first three digits as the direction (000 decoded as calm direction
0, 999 as absent) and the last two digits as the speed, always present; in
particular "00000" gives direction 0 and speed 0, and "99912" gives an
absent direction and speed 12. -/
theorem C7_wind (a b c d e : Char) (ha : a.isDigit = true) (hb : b.isDigit = true)
    (hc : c.isDigit = true) (hd : d.isDigit = true) (he : e.isDigit = true) :
    decode_wind (String.mk [a, b, c, d, e]) =
      Except.ok
        ((if (valOfDigits [a, b, c] : ℤ) = 0 then some 0
          else if (valOfDigits [a, b, c] : ℤ) = 999 then none
          else some ((valOfDigits [a, b, c] : ℤ))), (valOfDigits [d, e] : ℤ)) ∧
    decode_wind "00000" = Except.ok (some 0, 0) ∧
    decode_wind "99912" = Except.ok (none, 12) := by
  have h3 : ∀ x ∈ [a, b, c], x.isDigit = true := by
    intro x hx
    simp only [List.mem_cons, List.not_mem_nil, or_false] at hx
    rcases hx with rfl | rfl | rfl <;> assumption
  have h2 : ∀ x ∈ [d, e], x.isDigit = true := by
    intro x hx
    simp only [List.mem_cons, List.not_mem_nil, or_false] at hx
    rcases hx with rfl | rfl <;> assumption
  refine ⟨?_, by with_unfolding_all rfl, by with_unfolding_all rfl⟩
  have hlen : ¬ ((String.mk [a, b, c, d, e]).length ≠ 5) := by simp [String.length]
  have hddd : pyIntE (pySlice (String.mk [a, b, c, d, e]) 0 3) =
      Except.ok ((valOfDigits [a, b, c] : ℤ)) := by
    rw [show pySlice (String.mk [a, b, c, d, e]) 0 3 = String.mk [a, b, c] from rfl]
    exact pyIntE_mk_all_digits (by simp) h3
  have hff : pyIntE (pySlice (String.mk [a, b, c, d, e]) 3 5) =
      Except.ok ((valOfDigits [d, e] : ℤ)) := by
    rw [show pySlice (String.mk [a, b, c, d, e]) 3 5 = String.mk [d, e] from rfl]
    exact pyIntE_mk_all_digits (by simp) h2
  unfold decode_wind
  rw [if_neg hlen]
  simp only [hddd, hff, except_bind_ok, except_pure]

/-- Witness for C7: the claim evaluated at the group "99912" (and the two
concrete cases). -/
theorem C7_wind_witness :
    decode_wind (String.mk ['9', '9', '9', '1', '2']) =
      Except.ok
        ((if (valOfDigits ['9', '9', '9'] : ℤ) = 0 then some 0
          else if (valOfDigits ['9', '9', '9'] : ℤ) = 999 then none
          else some ((valOfDigits ['9', '9', '9'] : ℤ))), (valOfDigits ['1', '2'] : ℤ)) ∧
    decode_wind "00000" = Except.ok (some 0, 0) ∧
    decode_wind "99912" = Except.ok (none, 12) :=
  C7_wind '9' '9' '9' '1' '2' (by decide) (by decide) (by decide) (by decide) (by decide)

/-- Claim C8, counterexample.  The claim says the parse never fails when the
canonical timestamp cannot be derived from the source identifier.  On the
identifier "foo" (no dot, so no second-to-last dot-delimited token) the
parse fails with an uncaught `IndexError`, before any line is processed. -/
theorem C8_no_dot_counterexample :
    parse_temp_drop "SERIAL123\nNOUS KNHC 010000" "foo" testNow =
      Except.error "IndexError: list index out of range" := by with_unfolding_all rfl

/-- Claim C8, amended.  When the basename of the source identifier has at
least two dot-delimited tokens, the timestamp step never fails: an
unparsable second-to-last token falls back to the current UTC time (`now`)
with a warning.  With fewer than two tokens the step raises an uncaught
`IndexError` (see the counterexample). -/
theorem C8_fallback_amended (uri : String) (now : DateTime)
    (h : 2 ≤ (pySplitChar (pyBasename (urlparsePath uri)) '.').length) :
    (deriveMessageDate uri now).map (fun _ => ()) = Except.ok () ∧
    deriveMessageDate "x.nodigits.txt" now =
      Except.ok (now, ["Warning: Could not parse datetime from filename: x.nodigits.txt. Using current UTC time."]) := by
  constructor
  · have hidx : ∃ tok, pyIndexNeg2 (pySplitChar (pyBasename (urlparsePath uri)) '.') =
        Except.ok tok := by
      unfold pyIndexNeg2
      rw [if_pos h]
      have hlt : (pySplitChar (pyBasename (urlparsePath uri)) '.').length - 2 <
          (pySplitChar (pyBasename (urlparsePath uri)) '.').length := by omega
      rw [List.get?_eq_get hlt]
      exact ⟨_, rfl⟩
    obtain ⟨tok, htok⟩ := hidx
    unfold deriveMessageDate
    dsimp only
    rw [htok]
    simp only [except_bind_ok]
    cases strptimeYmdHM tok <;> simp
  · with_unfolding_all rfl

/-- Witness for C8: the amended claim evaluated at the identifier "a.b"
(two dot-delimited tokens, unparsable timestamp token). -/
theorem C8_fallback_witness :
    (deriveMessageDate "a.b" testNow).map (fun _ => ()) = Except.ok () ∧
    deriveMessageDate "x.nodigits.txt" testNow =
      Except.ok (testNow, ["Warning: Could not parse datetime from filename: x.nodigits.txt. Using current UTC time."]) :=
  C8_fallback_amended "a.b" testNow (by decide)

/-- Claim C9, counterexample.  The claim says the item's point geometry falls
back to the Part B fix when the Part A fix is absent.  On a message with
only a Part B fix at (10.0, -80.0) the produced item's geometry is null: no
fallback happens. -/
theorem C9_no_partb_fallback_counterexample :
    (parse_temp_drop msgPartBOnly testUri testNow).map
      (fun r => ((convert_dropsonde_to_stac_item r).geometry, r.header.part_b_latitude,
        r.header.part_b_longitude)) =
    Except.ok (none, some 10, some (-80)) := by with_unfolding_all rfl

/-- Claim C9, amended.  The point geometry is built from the Part A fix
only: whenever the Part A latitude or longitude is absent the geometry and
bounding box are null and an error is logged (not fatal), regardless of any
Part B fix. -/
theorem C9_geometry_amended (r : Report)
    (h : r.header.part_a_latitude = none ∨ r.header.part_a_longitude = none) :
    (convert_dropsonde_to_stac_item r).geometry = none ∧
    (convert_dropsonde_to_stac_item r).bbox = none ∧
    (convert_dropsonde_to_stac_item r).log =
      ["Error: Latitude or Longitude missing from dropsonde header. Cannot create valid geometry."] := by
  unfold convert_dropsonde_to_stac_item
  rcases h with h | h
  · cases hlon : r.header.part_a_longitude <;> simp [h, hlon]
  · cases hlat : r.header.part_a_latitude <;> simp [h, hlat]

/-- Witness for C9: the amended claim evaluated at the empty report. -/
theorem C9_geometry_witness :
    (convert_dropsonde_to_stac_item emptyReport).geometry = none ∧
    (convert_dropsonde_to_stac_item emptyReport).bbox = none ∧
    (convert_dropsonde_to_stac_item emptyReport).log =
      ["Error: Latitude or Longitude missing from dropsonde header. Cannot create valid geometry."] :=
  C9_geometry_amended emptyReport (Or.inl rfl)

/-- Claim C10: `convert_dropsonde_to_stac_item` is total on reports whose
sounding-system record is absent — the empty-dictionary substitution makes
every sounding-system-derived property `None` and nothing is raised. -/
theorem C10_sounding_system_none (r : Report) (h : r.part_a_sounding_system = none) :
    (convert_dropsonde_to_stac_item r).properties.radiosonde_system_description = none ∧
    (convert_dropsonde_to_stac_item r).properties.tracking_technique_description = none ∧
    (convert_dropsonde_to_stac_item r).properties.launch_hour_utc = none ∧
    (convert_dropsonde_to_stac_item r).properties.launch_minute_utc = none := by
  unfold convert_dropsonde_to_stac_item
  simp [h]

/-- Witness for C10: the claim evaluated at the empty report. -/
theorem C10_sounding_system_none_witness :
    (convert_dropsonde_to_stac_item emptyReport).properties.radiosonde_system_description = none ∧
    (convert_dropsonde_to_stac_item emptyReport).properties.tracking_technique_description = none ∧
    (convert_dropsonde_to_stac_item emptyReport).properties.launch_hour_utc = none ∧
    (convert_dropsonde_to_stac_item emptyReport).properties.launch_minute_utc = none :=
  C10_sounding_system_none emptyReport rfl

example :
    (parse_temp_drop msgBadSignGroup testUri testNow).map
      (fun r => (r.part_a_mandatory_levels.length, r.warnings.length)) = Except.ok (1, 1) := by
  with_unfolding_all rfl
